import Mathlib

/-! DX12 swap chain (Windows platform): a shallow embedding.

The development embeds `SwapChain_Windows.cpp` of the Atom RHI DX12 backend.
Member functions become pure functions from the object state and the answers
of the platform to an `Outcome`: how the call completed, the object state at
that point and the ordered trace of platform calls and diagnostics it issued.
A call through a null interface pointer and a division by zero end the call
with a `Fault`.
-/

namespace AZ.DX12

/-! ## Windows SDK scalars -/

/-- An `HRESULT`, kept as its 32-bit pattern. -/
abbrev HRESULT := Nat

def S_OK : HRESULT := 0x00000000
def DXGI_ERROR_INVALID_CALL : HRESULT := 0x887A0001
def DXGI_ERROR_DEVICE_REMOVED : HRESULT := 0x887A0005
def DXGI_ERROR_DEVICE_HUNG : HRESULT := 0x887A0006
def DXGI_ERROR_DEVICE_RESET : HRESULT := 0x887A0007
def DXGI_ERROR_DRIVER_INTERNAL_ERROR : HRESULT := 0x887A0020
def DXGI_ERROR_ACCESS_DENIED : HRESULT := 0x887A002B

/-- The `SUCCEEDED` test of the SDK: the code is non-negative as a signed
32-bit integer, that is, its sign bit is clear. -/
def SUCCEEDED (hr : HRESULT) : Bool := decide (hr % 2 ^ 32 < 2 ^ 31)

/-- A `BOOL` of the SDK is an integer; it converts to `true` when nonzero. -/
abbrev BOOL := Nat

def BOOL.toBool (b : BOOL) : Bool := decide (b ≠ 0)

/-- The color spaces of `DXGI_COLOR_SPACE_TYPE`, by enumerator value. -/
abbrev DXGI_COLOR_SPACE_TYPE := Nat

def DXGI_COLOR_SPACE_RGB_FULL_G22_NONE_P709 : DXGI_COLOR_SPACE_TYPE := 0
def DXGI_COLOR_SPACE_RGB_FULL_G10_NONE_P709 : DXGI_COLOR_SPACE_TYPE := 1
def DXGI_COLOR_SPACE_RGB_FULL_G2084_NONE_P2020 : DXGI_COLOR_SPACE_TYPE := 12
def DXGI_COLOR_SPACE_CUSTOM : DXGI_COLOR_SPACE_TYPE := 0xFFFFFFFF

def DXGI_SWAP_CHAIN_COLOR_SPACE_SUPPORT_FLAG_PRESENT : Nat := 0x1
def DXGI_SWAP_CHAIN_FLAG_ALLOW_MODE_SWITCH : Nat := 2
def DXGI_SWAP_CHAIN_FLAG_ALLOW_TEARING : Nat := 2048
def DXGI_MWA_NO_ALT_ENTER : Nat := 2
def DXGI_USAGE_RENDER_TARGET_OUTPUT : Nat := 0x20
def DXGI_SCALING_NONE : Nat := 1
def DXGI_SWAP_EFFECT_FLIP_SEQUENTIAL : Nat := 3

/-- Modelled from the spec: the "unset" color space a swap chain starts with,
the constant `InvalidColorSpace` of `RHI/SwapChain.h`, a header outside
this file. It is a value of no color space the code names. -/
def InvalidColorSpace : DXGI_COLOR_SPACE_TYPE := 0xFFFFFFFE

/-! ## binary32 arithmetic

The HDR metadata is computed in `float`. A finite non-negative `float` is kept
exactly, as a whole number of units of `2 ^ (-149)`, the spacing of the
smallest binary32 values; literals and products are rounded to the nearest
binary32 value, ties to even, as IEEE 754 prescribes. -/

structure Float32 where
  units : Nat
  deriving DecidableEq, Repr

/-- Nearest integer to `n / d`, ties to the even neighbour. -/
def roundHalfEven (n d : Nat) : Nat :=
  let q := n / d
  let r := n % d
  if 2 * r < d then q
  else if d < 2 * r then q + 1
  else if q % 2 = 0 then q else q + 1

/-- The spacing of binary32 around a value of `q` units, as a power of two of
units: the least `s` that leaves `q / 2 ^ s` a 24-bit significand. The finite
binary32 values span the exponents `s = 0, ..., 253`. -/
def ulpExponent (q : Nat) : Nat :=
  ((List.range 254).find? (fun s => decide (q / 2 ^ s < 2 ^ 24))).getD 254

/-- Rounding of the non-negative rational `n / d` to binary32. (Values beyond
the largest finite binary32 would round to infinity, which is not represented;
the literals of this program are far below.) -/
def Float32.round (n d : Nat) : Float32 :=
  let s := ulpExponent (n * 2 ^ 149 / d)
  { units := roundHalfEven (n * 2 ^ 149) (d * 2 ^ s) * 2 ^ s }

/-- A decimal literal `n / 10 ^ digits` with the `f` suffix. -/
def Float32.ofDecimal (n digits : Nat) : Float32 := Float32.round n (10 ^ digits)

/-- The `float` product. -/
def Float32.mul (a b : Float32) : Float32 :=
  Float32.round (a.units * b.units) (2 ^ 149 * 2 ^ 149)

/-- Conversion of a `float` to an integer discards the fraction. -/
def Float32.trunc (a : Float32) : Nat := a.units / 2 ^ 149

/-- The cast `static_cast<UINT16>(float)`. -/
def Float32.toUINT16 (a : Float32) : Nat := a.trunc % 2 ^ 16

/-- The cast `static_cast<UINT>(float)`. -/
def Float32.toUINT (a : Float32) : Nat := a.trunc % 2 ^ 32

/-! ## RHI types used by the swap chain -/

/-- Modelled from the spec: `RHI::ResultCode`, declared in a header outside this
file; creation and resize report their outcome with it. -/
inductive ResultCode where
  | Success
  | Fail
  | OutOfMemory
  | Unimplemented
  | InvalidOperation
  | InvalidArgument
  | NotReady
  deriving DecidableEq, Repr

/-- Modelled from the spec: `RHI::Format`, declared in a header outside this
file. The two formats the swap chain recognises are named; `other` stands for
every remaining enumerator. -/
inductive Format where
  | R8G8B8A8_UNORM
  | R10G10B10A2_UNORM
  | other (enumerator : Nat)
  deriving DecidableEq, Repr

/-- The record `RHI::SwapChainDimensions`. -/
structure SwapChainDimensions where
  m_imageCount : Nat
  m_imageWidth : Nat
  m_imageHeight : Nat
  m_imageFormat : Format
  deriving DecidableEq, Repr

/-- The record `RHI::SwapChainDescriptor`. -/
structure SwapChainDescriptor where
  m_dimensions : SwapChainDimensions
  m_verticalSyncInterval : Nat
  m_window : Nat
  deriving DecidableEq, Repr

/-! ## Native records -/

/-- The fields of `DXGI_SWAP_CHAIN_DESCX` that `InitInternal` fills in. -/
structure DXGI_SWAP_CHAIN_DESCX where
  SampleQuality : Nat
  SampleCount : Nat
  BufferCount : Nat
  BufferUsage : Nat
  Width : Nat
  Height : Nat
  Format : Nat
  Scaling : Nat
  SwapEffect : Nat
  Flags : Nat
  deriving DecidableEq, Repr

/-- The fields of `DXGI_SWAP_CHAIN_DESC` that `ResizeInternal` reads back. -/
structure DXGI_SWAP_CHAIN_DESC where
  BufferDescFormat : Nat
  Flags : Nat
  deriving DecidableEq, Repr

/-- The record `DXGI_HDR_METADATA_HDR10`; a primary is the pair of its two
array entries. -/
structure DXGI_HDR_METADATA_HDR10 where
  RedPrimary : Nat × Nat
  GreenPrimary : Nat × Nat
  BluePrimary : Nat × Nat
  WhitePoint : Nat × Nat
  MaxMasteringLuminance : Nat
  MinMasteringLuminance : Nat
  MaxContentLightLevel : Nat
  MaxFrameAverageLightLevel : Nat
  deriving DecidableEq, Repr

/-- The metadata argument of `IDXGISwapChain4::SetHDRMetaData`: type `NONE`
with a null record, or type `HDR10` with a record. -/
inductive HdrMetaData where
  | NONE
  | HDR10 (data : DXGI_HDR_METADATA_HDR10)
  deriving DecidableEq, Repr

/-- The local `DisplayChromacities` of `SetHDRMetaData`. -/
structure DisplayChromacities where
  RedX : Float32
  RedY : Float32
  GreenX : Float32
  GreenY : Float32
  BlueX : Float32
  BlueY : Float32
  WhiteX : Float32
  WhiteY : Float32
  deriving DecidableEq, Repr

/-- Entry 0 of `DisplayChromacityList`: display gamut Rec709. -/
def DisplayChromacityRec709 : DisplayChromacities :=
  { RedX := Float32.ofDecimal 64000 5, RedY := Float32.ofDecimal 33000 5,
    GreenX := Float32.ofDecimal 30000 5, GreenY := Float32.ofDecimal 60000 5,
    BlueX := Float32.ofDecimal 15000 5, BlueY := Float32.ofDecimal 6000 5,
    WhiteX := Float32.ofDecimal 31270 5, WhiteY := Float32.ofDecimal 32900 5 }

/-- Entry 1 of `DisplayChromacityList`: display gamut Rec2020. -/
def DisplayChromacityRec2020 : DisplayChromacities :=
  { RedX := Float32.ofDecimal 70800 5, RedY := Float32.ofDecimal 29200 5,
    GreenX := Float32.ofDecimal 17000 5, GreenY := Float32.ofDecimal 79700 5,
    BlueX := Float32.ofDecimal 13100 5, BlueY := Float32.ofDecimal 4600 5,
    WhiteX := Float32.ofDecimal 31270 5, WhiteY := Float32.ofDecimal 32900 5 }

/-- The table `DisplayChromacityList`, read at `selectedChroma`, which the
code only ever sets to 0 or 1. -/
def DisplayChromacityList (selectedChroma : Nat) : DisplayChromacities :=
  if selectedChroma = 0 then DisplayChromacityRec709 else DisplayChromacityRec2020

/-! ## Traces -/

/-- The texts `PresentInternal` prints with `AZ_TracePrintf`, named by the
code each begins with. -/
inductive TraceMessage where
  | DXGI_ERROR_DEVICE_HUNG
  | DXGI_ERROR_DEVICE_REMOVED
  | DXGI_ERROR_DEVICE_RESET
  | DXGI_ERROR_DRIVER_INTERNAL_ERROR
  | DXGI_ERROR_INVALID_CALL
  | DXGI_ERROR_ACCESS_DENIED
  | S_OK
  deriving DecidableEq, Repr

/-- The assertions of the file, named by their message. An assertion that
fails is reported and execution goes on; in release builds `AZ_Assert`
compiles to nothing. -/
inductive AssertMessage where
  | HresultNotASuccess (hr : HRESULT)
  | UnhandledSwapchainBufferFormat
  | InvalidColorSpaceTypeForSwapchain
  | FailedToSetSwapChainColorSpace
  | FailedToResetHdrMetadata
  | UnhandledColorSpaceForSwapchain
  | FailedToSetHdrMetaData
  deriving DecidableEq, Repr

/-- What a member function does that is visible outside the object, in
program order: calls into the platform and the device, and diagnostics. -/
inductive Event where
  | CreateDXGIFactory2
  | CheckFeatureSupport
  | CreateSwapChain (window : Nat) (desc : DXGI_SWAP_CHAIN_DESCX)
  | GetParent
  | MakeWindowAssociation (window : Nat) (flags : Nat)
  | SetFullscreenState (fullscreen : Bool)
  | Present (syncInterval : Nat) (flags : Nat)
  | GetDeviceRemovedReason
  | Sleep (milliseconds : Nat)
  | OutputLastScopeExecutingOnGPU
  | WaitForIdle
  | GetDesc
  | ResizeBuffers (count width height format flags : Nat)
  | GetFullscreenState
  | CheckColorSpaceSupport (colorSpace : DXGI_COLOR_SPACE_TYPE)
  | SetColorSpace1 (colorSpace : DXGI_COLOR_SPACE_TYPE)
  | SetHDRMetaData (metaData : HdrMetaData)
  | TracePrintf (message : TraceMessage)
  | AssertFailed (message : AssertMessage)
  deriving DecidableEq, Repr

/-- The events that are calls into the platform or the device, as opposed to
diagnostics of the engine. -/
def Event.isPlatformCall : Event → Bool
  | .TracePrintf _ => false
  | .AssertFailed _ => false
  | _ => true

/-- The diagnostic records: what `AZ_TracePrintf` printed. -/
def Event.isDiagnostic : Event → Bool
  | .TracePrintf _ => true
  | _ => false

/-! ## Object state, platform answers, outcomes -/

/-- The object: the members of `DX12::SwapChain` the file uses, and what it
reads of its base class through `GetCurrentImageIndex`, `GetImageCount` and
`GetDescriptor`. -/
structure SwapChain where
  /-- The native swap chain `m_swapChain`; `none` is the null pointer. -/
  m_swapChain : Option Nat
  m_isTearingSupported : Bool
  m_isInFullScreenExclusiveState : Bool
  m_colorSpace : DXGI_COLOR_SPACE_TYPE
  /-- Modelled from the spec: the current image index of the base class,
  read by `GetCurrentImageIndex()`, a `uint32_t`. -/
  currentImageIndex : Nat
  /-- Modelled from the spec: the image-buffer count of the base class, read
  by `GetImageCount()`, a `uint32_t`. -/
  imageCount : Nat
  /-- The descriptor of the base class, read by `GetDescriptor()`. -/
  descriptor : SwapChainDescriptor
  deriving DecidableEq, Repr

/-- What the platform and the device answer to the calls of one member
function. An out-parameter is given as the value the call leaves in it. -/
structure Platform where
  CreateDXGIFactory2 : HRESULT
  CheckFeatureSupport : HRESULT × BOOL
  /-- The answer of `Device::CreateSwapChain`: its result code and the pointer
  it leaves in `m_swapChain`. -/
  CreateSwapChain : ResultCode × Option Nat
  /-- Whether `GetParent` leaves a factory in `parentFactory`. -/
  GetParent : Bool
  MakeWindowAssociation : HRESULT
  Present : HRESULT
  GetDeviceRemovedReason : HRESULT
  IsAftermathInitialized : Bool
  GetDesc : DXGI_SWAP_CHAIN_DESC
  ResizeBuffers : HRESULT
  GetFullscreenState : HRESULT × BOOL
  CheckColorSpaceSupport : DXGI_COLOR_SPACE_TYPE → HRESULT × Nat
  SetColorSpace1 : HRESULT
  SetHDRMetaData : HRESULT

/-- How a call can end other than by returning. -/
inductive Fault where
  | nullDereference
  | divisionByZero
  deriving DecidableEq, Repr

/-- The outcome of a member function: the value it returned, or the fault
that stopped it, with the object at that point and the events the call issued
up to there, oldest first. -/
structure Outcome (α : Type) where
  result : Except Fault α
  self : SwapChain
  trace : List Event

/-- A call that returns `a` after issuing `trace`. -/
def Outcome.returns {α : Type} (a : α) (self : SwapChain) (trace : List Event) : Outcome α :=
  { result := .ok a, self := self, trace := trace }

/-- A call stopped by `f` after issuing `trace`. -/
def Outcome.faults {α : Type} (f : Fault) (self : SwapChain) (trace : List Event) : Outcome α :=
  { result := .error f, self := self, trace := trace }

/-- Sequencing: the events `before`, then `o`. -/
def Outcome.after {α : Type} (before : List Event) (o : Outcome α) : Outcome α :=
  { o with trace := before ++ o.trace }

/-- Sequencing: `o`, then, when `o` returned, the rest of the function. -/
def Outcome.andThen {α β : Type} (o : Outcome α) (k : α → SwapChain → Outcome β) : Outcome β :=
  match o.result with
  | .error f => Outcome.faults f o.self o.trace
  | .ok a => Outcome.after o.trace (k a o.self)

/-! ## The member functions -/

/-- Modelled from the spec: `DX12::AssertSuccess`, defined outside this file.
It tells whether the backend call succeeded ("on successful buffer recreation
... on failure") and asserts that it did. -/
def AssertSuccess (hr : HRESULT) : Bool × List Event :=
  if SUCCEEDED hr then (true, []) else (false, [.AssertFailed (.HresultNotASuccess hr)])

/-- An `AZ_Assert(S_OK == hr, message)`. -/
def assertOk (hr : HRESULT) (message : AssertMessage) : List Event :=
  if S_OK = hr then [] else [.AssertFailed message]

/-- The function `SwapChain::DisableHdr`. -/
def DisableHdr (p : Platform) (self : SwapChain) : Outcome Unit :=
  match self.m_swapChain with
  | none => Outcome.faults .nullDereference self []
  | some _ =>
    Outcome.returns () self
      ([.SetHDRMetaData .NONE] ++ assertOk p.SetHDRMetaData .FailedToResetHdrMetadata)

/-- The selection of `selectedChroma` in `SetHDRMetaData`, from the cached
color space, with the assertion raised on the way. -/
def selectChroma (m_colorSpace : DXGI_COLOR_SPACE_TYPE) : Nat × List Event :=
  if m_colorSpace = DXGI_COLOR_SPACE_RGB_FULL_G10_NONE_P709 then (0, [])
  else if m_colorSpace = DXGI_COLOR_SPACE_RGB_FULL_G2084_NONE_P2020 then (1, [])
  else (0, [.AssertFailed .UnhandledColorSpaceForSwapchain])

/-- The record `HDR10MetaData` that `SetHDRMetaData` fills in from the
selected chromaticities and its four arguments. -/
def HDR10MetaData (Chroma : DisplayChromacities)
    (maxOutputNits minOutputNits maxContentLightLevelNits maxFrameAverageLightLevelNits : Float32) :
    DXGI_HDR_METADATA_HDR10 :=
  let ChromaticityScalingFactor : Float32 := Float32.ofDecimal 500000 1
  let LuminanceScalingFactor : Float32 := Float32.ofDecimal 100000 1
  { RedPrimary := ((Chroma.RedX.mul ChromaticityScalingFactor).toUINT16,
                   (Chroma.RedY.mul ChromaticityScalingFactor).toUINT16),
    GreenPrimary := ((Chroma.GreenX.mul ChromaticityScalingFactor).toUINT16,
                     (Chroma.GreenY.mul ChromaticityScalingFactor).toUINT16),
    BluePrimary := ((Chroma.BlueX.mul ChromaticityScalingFactor).toUINT16,
                    (Chroma.BlueY.mul ChromaticityScalingFactor).toUINT16),
    WhitePoint := ((Chroma.WhiteX.mul ChromaticityScalingFactor).toUINT16,
                   (Chroma.WhiteY.mul ChromaticityScalingFactor).toUINT16),
    MaxMasteringLuminance := (maxOutputNits.mul LuminanceScalingFactor).toUINT,
    MinMasteringLuminance := (minOutputNits.mul LuminanceScalingFactor).toUINT,
    MaxContentLightLevel := maxContentLightLevelNits.toUINT16,
    MaxFrameAverageLightLevel := maxFrameAverageLightLevelNits.toUINT16 }

/-- The function `SwapChain::SetHDRMetaData`. -/
def SetHDRMetaData (p : Platform) (self : SwapChain)
    (maxOutputNits minOutputNits maxContentLightLevelNits maxFrameAverageLightLevelNits : Float32) :
    Outcome Unit :=
  let selectedChroma := selectChroma self.m_colorSpace
  let Chroma := DisplayChromacityList selectedChroma.1
  let data := HDR10MetaData Chroma maxOutputNits minOutputNits maxContentLightLevelNits
    maxFrameAverageLightLevelNits
  match self.m_swapChain with
  | none => Outcome.faults .nullDereference self selectedChroma.2
  | some _ =>
    Outcome.returns () self
      (selectedChroma.2 ++ [.SetHDRMetaData (.HDR10 data)]
        ++ assertOk p.SetHDRMetaData .FailedToSetHdrMetaData)

/-- The function `SwapChain::EnsureColorSpace`. -/
def EnsureColorSpace (p : Platform) (self : SwapChain) (colorSpace : DXGI_COLOR_SPACE_TYPE) :
    Outcome Unit :=
  let asserted : List Event :=
    if colorSpace ≠ DXGI_COLOR_SPACE_CUSTOM then []
    else [.AssertFailed .InvalidColorSpaceTypeForSwapchain]
  match self.m_swapChain with
  | none => Outcome.faults .nullDereference self asserted
  | some _ =>
    let res := (p.CheckColorSpaceSupport colorSpace).1
    let colorSpaceSupport := (p.CheckColorSpaceSupport colorSpace).2
    if res = S_OK then
      if colorSpaceSupport &&& DXGI_SWAP_CHAIN_COLOR_SPACE_SUPPORT_FLAG_PRESENT ≠ 0 then
        Outcome.returns () { self with m_colorSpace := colorSpace }
          (asserted ++ [.CheckColorSpaceSupport colorSpace, .SetColorSpace1 colorSpace]
            ++ assertOk p.SetColorSpace1 .FailedToSetSwapChainColorSpace)
      else Outcome.returns () self (asserted ++ [.CheckColorSpaceSupport colorSpace])
    else Outcome.returns () self (asserted ++ [.CheckColorSpaceSupport colorSpace])

/-- The first part of `ConfigureDisplayMode`: the color space and the
`hdrEnabled` flag the image format resolves to, with the assertion raised for
a format that is neither of the two. -/
def resolveDisplayMode (m_imageFormat : Format) : DXGI_COLOR_SPACE_TYPE × Bool × List Event :=
  if m_imageFormat = Format.R8G8B8A8_UNORM then
    (DXGI_COLOR_SPACE_RGB_FULL_G22_NONE_P709, false, [])
  else if m_imageFormat = Format.R10G10B10A2_UNORM then
    (DXGI_COLOR_SPACE_RGB_FULL_G2084_NONE_P2020, true, [])
  else (InvalidColorSpace, false, [.AssertFailed .UnhandledSwapchainBufferFormat])

/-- The function `SwapChain::ConfigureDisplayMode`. -/
def ConfigureDisplayMode (p : Platform) (self : SwapChain) (dimensions : SwapChainDimensions) :
    Outcome Unit :=
  let colorSpace := (resolveDisplayMode dimensions.m_imageFormat).1
  let hdrEnabled := (resolveDisplayMode dimensions.m_imageFormat).2.1
  let asserted := (resolveDisplayMode dimensions.m_imageFormat).2.2
  if self.m_colorSpace ≠ colorSpace then
    Outcome.after asserted
      ((EnsureColorSpace p self colorSpace).andThen fun _ self1 =>
        if hdrEnabled then
          let maxOutputNits := Float32.ofDecimal 1000 0
          let minOutputNits := Float32.ofDecimal 1 3
          let maxContentLightLevelNits := Float32.ofDecimal 2000 0
          let maxFrameAverageLightLevelNits := Float32.ofDecimal 500 0
          SetHDRMetaData p self1 maxOutputNits minOutputNits maxContentLightLevelNits
            maxFrameAverageLightLevelNits
        else DisableHdr p self1)
  else Outcome.returns () self asserted

/-- The native creation descriptor `swapChainDesc` that `InitInternal` builds.
`FrameCountMax` is `RHI::Limits::Device::FrameCountMax` and `ConvertFormat`
the format conversion of `RHI/Conversions.h`, both declared outside this
file. -/
def swapChainDesc (FrameCountMax : Nat) (ConvertFormat : Format → Nat)
    (m_isTearingSupported : Bool) (descriptor : SwapChainDescriptor) : DXGI_SWAP_CHAIN_DESCX :=
  let SwapBufferCount := FrameCountMax
  { SampleQuality := 0,
    SampleCount := 1,
    BufferCount := SwapBufferCount,
    BufferUsage := DXGI_USAGE_RENDER_TARGET_OUTPUT,
    Width := descriptor.m_dimensions.m_imageWidth,
    Height := descriptor.m_dimensions.m_imageHeight,
    Format := ConvertFormat descriptor.m_dimensions.m_imageFormat,
    Scaling := DXGI_SCALING_NONE,
    SwapEffect := DXGI_SWAP_EFFECT_FLIP_SEQUENTIAL,
    Flags :=
      if m_isTearingSupported then
        DXGI_SWAP_CHAIN_FLAG_ALLOW_MODE_SWITCH ||| DXGI_SWAP_CHAIN_FLAG_ALLOW_TEARING
      else DXGI_SWAP_CHAIN_FLAG_ALLOW_MODE_SWITCH }

/-- The end of `InitInternal` when tearing is supported: the window
association made on the factory that owns the swap chain. -/
def makeWindowAssociation (p : Platform) (self : SwapChain) (window : Nat) : Outcome Unit :=
  match self.m_swapChain with
  | none => Outcome.faults .nullDereference self []
  | some _ =>
    if p.GetParent then
      Outcome.returns () self
        ([.GetParent, .MakeWindowAssociation window DXGI_MWA_NO_ALT_ENTER]
          ++ (AssertSuccess p.MakeWindowAssociation).2)
    else Outcome.faults .nullDereference self [.GetParent]

/-- The function `SwapChain::InitInternal`. The out-parameter
`nativeDimensions` is `none` for a null pointer and otherwise the record it
points to; the record is returned next to the result code. -/
def InitInternal (FrameCountMax : Nat) (ConvertFormat : Format → Nat) (p : Platform)
    (self : SwapChain) (descriptor : SwapChainDescriptor)
    (nativeDimensions : Option SwapChainDimensions) :
    Outcome (ResultCode × Option SwapChainDimensions) :=
  let factory := AssertSuccess p.CreateDXGIFactory2
  if factory.1 then
    let allowTearing : BOOL := p.CheckFeatureSupport.2
    let self1 : SwapChain :=
      { self with m_isTearingSupported := SUCCEEDED p.CheckFeatureSupport.1 && allowTearing.toBool }
    let nativeDimensions1 := nativeDimensions.map fun _ => descriptor.m_dimensions
    let desc := swapChainDesc FrameCountMax ConvertFormat self1.m_isTearingSupported descriptor
    let window := descriptor.m_window
    let result := p.CreateSwapChain.1
    let self2 : SwapChain := { self1 with m_swapChain := p.CreateSwapChain.2 }
    let issued : List Event :=
      [.CreateDXGIFactory2] ++ factory.2 ++ [.CheckFeatureSupport, .CreateSwapChain window desc]
    if result = ResultCode.Success then
      match nativeDimensions1 with
      | none => Outcome.faults .nullDereference self2 issued
      | some dimensions =>
        Outcome.after issued
          ((ConfigureDisplayMode p self2 dimensions).andThen fun _ self3 =>
            if self3.m_isTearingSupported then
              (makeWindowAssociation p self3 window).andThen fun _ self4 =>
                Outcome.returns (result, nativeDimensions1) self4 []
            else Outcome.returns (result, nativeDimensions1) self3 [])
    else Outcome.returns (result, nativeDimensions1) self2 issued
  else
    Outcome.faults .nullDereference self ([.CreateDXGIFactory2] ++ factory.2)

/-- The `switch` of `PresentInternal` on the device-removed reason: the text
printed for the reason. The switch has no `default` label. -/
def deviceRemovedTrace (deviceRemovedResult : HRESULT) : List Event :=
  if deviceRemovedResult = DXGI_ERROR_DEVICE_HUNG then
    [.TracePrintf .DXGI_ERROR_DEVICE_HUNG]
  else if deviceRemovedResult = DXGI_ERROR_DEVICE_REMOVED then
    [.TracePrintf .DXGI_ERROR_DEVICE_REMOVED]
  else if deviceRemovedResult = DXGI_ERROR_DEVICE_RESET then
    [.TracePrintf .DXGI_ERROR_DEVICE_RESET]
  else if deviceRemovedResult = DXGI_ERROR_DRIVER_INTERNAL_ERROR then
    [.TracePrintf .DXGI_ERROR_DRIVER_INTERNAL_ERROR]
  else if deviceRemovedResult = DXGI_ERROR_INVALID_CALL then
    [.TracePrintf .DXGI_ERROR_INVALID_CALL]
  else if deviceRemovedResult = DXGI_ERROR_ACCESS_DENIED then
    [.TracePrintf .DXGI_ERROR_ACCESS_DENIED]
  else if deviceRemovedResult = S_OK then
    [.TracePrintf .S_OK]
  else []

/-- The body of `if (hresult == DXGI_ERROR_DEVICE_REMOVED)` in
`PresentInternal`. -/
def onDeviceRemoved (p : Platform) : List Event :=
  [.GetDeviceRemovedReason] ++ deviceRemovedTrace p.GetDeviceRemovedReason
    ++ (if p.IsAftermathInitialized then [.Sleep 3000, .OutputLastScopeExecutingOnGPU] else [])

/-- The function `SwapChain::PresentInternal`. The returned index is
computed in `uint32_t`. -/
def PresentInternal (p : Platform) (self : SwapChain) : Outcome Nat :=
  match self.m_swapChain with
  | some _ =>
    let hresult := p.Present
    let issued : List Event :=
      [.Present self.descriptor.m_verticalSyncInterval 0]
        ++ (if hresult = DXGI_ERROR_DEVICE_REMOVED then onDeviceRemoved p else [])
    if self.imageCount = 0 then Outcome.faults .divisionByZero self issued
    else Outcome.returns ((self.currentImageIndex + 1) % 2 ^ 32 % self.imageCount) self issued
  | none => Outcome.returns self.currentImageIndex self []

/-- The function `SwapChain::ResizeInternal`. The out-parameter
`nativeDimensions` is `none` for a null pointer and otherwise the record it
points to; the record is returned next to the result code. -/
def ResizeInternal (p : Platform) (self : SwapChain) (dimensions : SwapChainDimensions)
    (nativeDimensions : Option SwapChainDimensions) :
    Outcome (ResultCode × Option SwapChainDimensions) :=
  match self.m_swapChain with
  | none => Outcome.faults .nullDereference self [.WaitForIdle]
  | some _ =>
    let swapChainDesc := p.GetDesc
    let resized := AssertSuccess p.ResizeBuffers
    let issued : List Event :=
      [.WaitForIdle, .GetDesc,
        .ResizeBuffers dimensions.m_imageCount dimensions.m_imageWidth dimensions.m_imageHeight
          swapChainDesc.BufferDescFormat swapChainDesc.Flags] ++ resized.2
    if resized.1 then
      let nativeDimensions1 := nativeDimensions.map fun _ => dimensions
      Outcome.after issued
        ((ConfigureDisplayMode p self dimensions).andThen fun _ self1 =>
          let fullscreenState : BOOL := p.GetFullscreenState.2
          Outcome.returns (ResultCode.Success, nativeDimensions1)
            { self1 with
              m_isInFullScreenExclusiveState :=
                SUCCEEDED p.GetFullscreenState.1 && fullscreenState.toBool }
            [.GetFullscreenState])
    else Outcome.returns (ResultCode.Fail, nativeDimensions) self issued

/-- The function `SwapChain::IsExclusiveFullScreenPreferred`. -/
def IsExclusiveFullScreenPreferred (self : SwapChain) : Bool :=
  !self.m_isTearingSupported

/-- The function `SwapChain::GetExclusiveFullScreenState`. -/
def GetExclusiveFullScreenState (self : SwapChain) : Bool :=
  self.m_isInFullScreenExclusiveState

/-- The function `SwapChain::SetExclusiveFullScreenState`. -/
def SetExclusiveFullScreenState (self : SwapChain) (fullScreenState : Bool) : Outcome Bool :=
  Outcome.returns (fullScreenState == self.m_isInFullScreenExclusiveState) self
    (match self.m_swapChain with
      | some _ => [.SetFullscreenState fullScreenState]
      | none => [])

/-! ## The frame loop and the reading of traces -/

/-- Modelled from the spec: the caller of `PresentInternal`, the `Present` of
the base class, defined outside this file. It stores the index that
`PresentInternal` returned as the current image index. -/
def Present (p : Platform) (self : SwapChain) : Outcome Nat :=
  (PresentInternal p self).andThen fun index self1 =>
    Outcome.returns index { self1 with currentImageIndex := index } []

/-- Successive `Present` calls, one for each platform answer, each on the
object the call before left; the outcomes in call order. -/
def presentSequence : List Platform → SwapChain → List (Outcome Nat)
  | [], _ => []
  | p :: ps, self => Present p self :: presentSequence ps (Present p self).self

/-- The diagnostic records in a trace, in order. -/
def diagnostics : List Event → List TraceMessage
  | [] => []
  | .TracePrintf message :: rest => message :: diagnostics rest
  | _ :: rest => diagnostics rest

/-- The classification tags the specification gives to device-loss
diagnostics. -/
inductive Classification where
  | DeviceHung
  | DeviceRemoved
  | DeviceReset
  | DriverInternalError
  | InvalidCall
  | AccessDenied
  | Unexpected
  deriving DecidableEq, Repr

/-- The tag of a printed text. The text for `S_OK`, "the method succeeded
without an error", is what the specification files under `Unexpected`. -/
def TraceMessage.classification : TraceMessage → Classification
  | .DXGI_ERROR_DEVICE_HUNG => .DeviceHung
  | .DXGI_ERROR_DEVICE_REMOVED => .DeviceRemoved
  | .DXGI_ERROR_DEVICE_RESET => .DeviceReset
  | .DXGI_ERROR_DRIVER_INTERNAL_ERROR => .DriverInternalError
  | .DXGI_ERROR_INVALID_CALL => .InvalidCall
  | .DXGI_ERROR_ACCESS_DENIED => .AccessDenied
  | .S_OK => .Unexpected

/-- The classification in the specification's words: a tag for each of the
six named errors and `Unexpected` for every other code. -/
def specClassification (deviceRemovedResult : HRESULT) : Classification :=
  if deviceRemovedResult = DXGI_ERROR_DEVICE_HUNG then .DeviceHung
  else if deviceRemovedResult = DXGI_ERROR_DEVICE_REMOVED then .DeviceRemoved
  else if deviceRemovedResult = DXGI_ERROR_DEVICE_RESET then .DeviceReset
  else if deviceRemovedResult = DXGI_ERROR_DRIVER_INTERNAL_ERROR then .DriverInternalError
  else if deviceRemovedResult = DXGI_ERROR_INVALID_CALL then .InvalidCall
  else if deviceRemovedResult = DXGI_ERROR_ACCESS_DENIED then .AccessDenied
  else .Unexpected

/-- The seven codes the `switch` of `PresentInternal` has a label for. -/
def switchLabels : List HRESULT :=
  [DXGI_ERROR_DEVICE_HUNG, DXGI_ERROR_DEVICE_REMOVED, DXGI_ERROR_DEVICE_RESET,
    DXGI_ERROR_DRIVER_INTERNAL_ERROR, DXGI_ERROR_INVALID_CALL, DXGI_ERROR_ACCESS_DENIED, S_OK]

/-- The HDR10 records issued in a trace, in order. -/
def issuedHDR10 : List Event → List DXGI_HDR_METADATA_HDR10
  | [] => []
  | .SetHDRMetaData (.HDR10 data) :: rest => data :: issuedHDR10 rest
  | _ :: rest => issuedHDR10 rest

/-- The events a display-mode configuration may issue: the color-space and
HDR-metadata calls and assertions. -/
def Event.isDisplayModeEvent : Event → Bool
  | .CheckColorSpaceSupport _ => true
  | .SetColorSpace1 _ => true
  | .SetHDRMetaData _ => true
  | .AssertFailed _ => true
  | _ => false

/-- The events that may follow the buffer recreation in a resize: those of
the display-mode configuration and the fullscreen-state query. -/
def Event.followsResize : Event → Bool
  | .GetFullscreenState => true
  | e => e.isDisplayModeEvent

/-- The buffer counts of the native creation descriptors passed to
`CreateSwapChain` in a trace, in order. -/
def createdBufferCounts : List Event → List Nat
  | [] => []
  | .CreateSwapChain _ desc :: rest => desc.BufferCount :: createdBufferCounts rest
  | _ :: rest => createdBufferCounts rest

/-! ## Concrete inputs -/

namespace Sample

def E_FAIL : HRESULT := 0x80004005
def E_OUTOFMEMORY : HRESULT := 0x8007000E

/-- A platform on which every call succeeds, the display supports every color
space for presentation, tearing is allowed and no crash capture is active. -/
def platform : Platform :=
  { CreateDXGIFactory2 := S_OK,
    CheckFeatureSupport := (S_OK, 1),
    CreateSwapChain := (ResultCode.Success, some 1),
    GetParent := true,
    MakeWindowAssociation := S_OK,
    Present := S_OK,
    GetDeviceRemovedReason := S_OK,
    IsAftermathInitialized := false,
    GetDesc := { BufferDescFormat := 24, Flags := 2050 },
    ResizeBuffers := S_OK,
    GetFullscreenState := (S_OK, 0),
    CheckColorSpaceSupport := fun _ => (S_OK, 1),
    SetColorSpace1 := S_OK,
    SetHDRMetaData := S_OK }

def standardDimensions : SwapChainDimensions :=
  { m_imageCount := 3, m_imageWidth := 1920, m_imageHeight := 1080,
    m_imageFormat := Format.R8G8B8A8_UNORM }

def extendedDimensions : SwapChainDimensions :=
  { m_imageCount := 3, m_imageWidth := 1920, m_imageHeight := 1080,
    m_imageFormat := Format.R10G10B10A2_UNORM }

def descriptor : SwapChainDescriptor :=
  { m_dimensions := standardDimensions, m_verticalSyncInterval := 1, m_window := 7 }

/-- The creation descriptor that requests `count` images. -/
def descriptorRequesting (count : Nat) : SwapChainDescriptor :=
  { descriptor with m_dimensions := { standardDimensions with m_imageCount := count } }

/-- An object before `InitInternal`: no native swap chain, color space unset. -/
def uninitialized : SwapChain :=
  { m_swapChain := none, m_isTearingSupported := false,
    m_isInFullScreenExclusiveState := false, m_colorSpace := InvalidColorSpace,
    currentImageIndex := 0, imageCount := 3, descriptor := descriptor }

/-- A freshly created swap chain of three images whose color space is still
unset. -/
def fresh : SwapChain := { uninitialized with m_swapChain := some 1 }

/-- A live swap chain configured for the wide-gamut color space. -/
def wideGamut : SwapChain :=
  { fresh with m_colorSpace := DXGI_COLOR_SPACE_RGB_FULL_G2084_NONE_P2020 }

/-- A platform whose display reports no support for the queried color space. -/
def unsupportedPlatform : Platform :=
  { platform with CheckColorSpaceSupport := fun _ => (S_OK, 0) }

/-- A platform whose present fails with device removal for the reason
`reason`, crash capture being active. -/
def removedPlatform (reason : HRESULT) : Platform :=
  { platform with
    Present := DXGI_ERROR_DEVICE_REMOVED, GetDeviceRemovedReason := reason,
    IsAftermathInitialized := true }

/-- A platform on which `ResizeBuffers` fails with `hr`. -/
def resizeFailing (hr : HRESULT) : Platform := { platform with ResizeBuffers := hr }

end Sample

/-! ## Presenting -/

/-- On a live swap chain with at least one image, `PresentInternal` returns
the rotated index, whatever the platform answers, and leaves the object as it
was. -/
theorem PresentInternal_live (p : Platform) (self : SwapChain)
    (hlive : self.m_swapChain.isSome = true) (hcount : self.imageCount ≠ 0) :
    (PresentInternal p self).result
        = .ok ((self.currentImageIndex + 1) % 2 ^ 32 % self.imageCount)
      ∧ (PresentInternal p self).self = self := by
  cases hs : self.m_swapChain with
  | none => simp [hs] at hlive
  | some h => simp [PresentInternal, hs, hcount, Outcome.returns]

/-- What `Present` leaves behind on a live swap chain: the rotated index, as
the result and as the new current index. -/
theorem Present_live (p : Platform) (self : SwapChain)
    (hlive : self.m_swapChain.isSome = true) (hcount : self.imageCount ≠ 0) :
    (Present p self).result = .ok ((self.currentImageIndex + 1) % 2 ^ 32 % self.imageCount)
      ∧ (Present p self).self
          = { self with
              currentImageIndex := (self.currentImageIndex + 1) % 2 ^ 32 % self.imageCount } := by
  obtain ⟨hr, hs⟩ := PresentInternal_live p self hlive hcount
  simp [Present, Outcome.andThen, hr, hs, Outcome.after, Outcome.returns]

/-- From any valid start index `c`, the results of successive presents on a
live swap chain of `N` images are `c + 1, c + 2, ...` modulo `N`. -/
theorem presentSequence_from (N : Nat) (hN : 1 ≤ N) (hN32 : N < 2 ^ 32) (ps : List Platform) :
    ∀ (self : SwapChain) (c : Nat), self.m_swapChain.isSome = true → self.imageCount = N →
      self.currentImageIndex = c → c < N →
      (presentSequence ps self).map (fun o => o.result)
        = (List.range ps.length).map fun k => Except.ok ((c + k + 1) % N) := by
  induction ps with
  | nil => intros; rfl
  | cons p ps ih =>
    intro self c hlive hcount hidx hc
    have hne : self.imageCount ≠ 0 := by omega
    obtain ⟨hr, hs⟩ := Present_live p self hlive hne
    have hwrap : (c + 1) % 2 ^ 32 = c + 1 := Nat.mod_eq_of_lt (by omega)
    rw [hidx, hcount, hwrap] at hr hs
    have hlt : (c + 1) % N < N := Nat.mod_lt _ (by omega)
    have ih1 := ih (Present p self).self ((c + 1) % N) (by simp [hs, hlive])
      (by simp [hs, hcount]) (by simp [hs]) hlt
    simp only [presentSequence, List.map_cons, List.length_cons, List.range_succ_eq_map, hr, ih1,
      List.map_map]
    refine congrArg₂ List.cons (by simp) (List.map_congr_left ?_)
    intro k _
    simp only [Function.comp, Nat.succ_eq_add_one]
    congr 1
    rw [Nat.add_assoc ((c + 1) % N), Nat.mod_add_mod]
    congr 1
    omega

/-- Claim C1. On a live swap chain of `N ≥ 1` images (a `uint32_t` count)
whose current index starts at 0 and is set to each returned value, for every
sequence of platform answers (present succeeding or failing, with any
device-removed reason, crash capture active or not) the results of the
successive `PresentInternal` calls are `1 mod N, 2 mod N, ...`: the `k`-th
call returns `k mod N`, each call returns its current index plus one modulo
`N`, and every returned index is below `N`. -/
theorem present_indices_cycle (N : Nat) (hN : 1 ≤ N) (hN32 : N < 2 ^ 32) (self : SwapChain)
    (hlive : self.m_swapChain.isSome = true) (hcount : self.imageCount = N)
    (hstart : self.currentImageIndex = 0) (ps : List Platform) :
    (presentSequence ps self).map (fun o => o.result)
        = (List.range ps.length).map (fun k => Except.ok ((k + 1) % N))
      ∧ (∀ k, k < ps.length → (k + 1) % N < N)
      ∧ ∀ (p : Platform) (s : SwapChain), s.m_swapChain.isSome = true → s.imageCount = N →
          s.currentImageIndex < N →
          (PresentInternal p s).result = .ok ((s.currentImageIndex + 1) % N) := by
  refine ⟨?_, fun k _ => Nat.mod_lt _ (by omega), ?_⟩
  · have h := presentSequence_from N hN hN32 ps self 0 hlive hcount hstart (by omega)
    simpa using h
  · intro p s hl hc hi
    have h := (PresentInternal_live p s hl (by omega)).1
    rw [h, hc, Nat.mod_eq_of_lt (by omega : s.currentImageIndex + 1 < 2 ^ 32)]

/-- Three images, four presents: success, two device removals (a named
reason and an unrecognized one, crash capture active), success. -/
theorem present_indices_cycle_witness :
    (presentSequence
        [Sample.platform, Sample.removedPlatform DXGI_ERROR_DEVICE_HUNG,
          Sample.removedPlatform Sample.E_FAIL, Sample.platform] Sample.fresh).map
        (fun o => o.result)
      = [.ok 1, .ok 2, .ok 0, .ok 1] :=
  (present_indices_cycle 3 (by decide) (by decide) Sample.fresh rfl rfl rfl
    [Sample.platform, Sample.removedPlatform DXGI_ERROR_DEVICE_HUNG,
      Sample.removedPlatform Sample.E_FAIL, Sample.platform]).1

/-- Without a native swap chain `Present` is `PresentInternal`: storing the
returned index changes nothing. -/
theorem Present_null (p : Platform) (self : SwapChain) (hnull : self.m_swapChain = none) :
    Present p self = Outcome.returns self.currentImageIndex self [] := by
  cases self
  simp only at hnull
  subst hnull
  rfl

/-- Without a native swap chain every outcome of a run of presents is the
same no-op. -/
theorem presentSequence_null (ps : List Platform) (self : SwapChain)
    (hnull : self.m_swapChain = none) :
    ∀ o ∈ presentSequence ps self, o = Outcome.returns self.currentImageIndex self [] := by
  induction ps with
  | nil => intro o ho; simp [presentSequence] at ho
  | cons p ps ih =>
    intro o ho
    have hP := Present_null p self hnull
    simp only [presentSequence, List.mem_cons] at ho
    rcases ho with ho | ho
    · rw [ho, hP]
    · rw [hP] at ho
      exact ih o ho

/-- Claim C2. When the native swap chain is null (never created, or already
destroyed), `PresentInternal` returns the current image index, issues no
event at all (no `Present`, no removal-reason query, no sleep) and leaves
every field of the object as it was; repeated presents all do the same, so a
chain whose index starts at 0 returns 0 on every call. -/
theorem present_without_surface (p : Platform) (self : SwapChain)
    (hnull : self.m_swapChain = none) :
    (PresentInternal p self).result = .ok self.currentImageIndex
      ∧ (PresentInternal p self).trace = []
      ∧ (PresentInternal p self).self = self
      ∧ (∀ (ps : List Platform), ∀ o ∈ presentSequence ps self,
          o.result = .ok self.currentImageIndex ∧ o.trace = [] ∧ o.self = self)
      ∧ (self.currentImageIndex = 0 →
          ∀ (ps : List Platform), ∀ o ∈ presentSequence ps self, o.result = .ok 0) := by
  have hseq := fun ps => presentSequence_null ps self hnull
  refine ⟨by simp [PresentInternal, hnull, Outcome.returns],
    by simp [PresentInternal, hnull, Outcome.returns],
    by simp [PresentInternal, hnull, Outcome.returns], ?_, ?_⟩
  · intro ps o ho
    rw [hseq ps o ho]
    exact ⟨rfl, rfl, rfl⟩
  · intro h0 ps o ho
    rw [hseq ps o ho, ← h0]
    rfl

/-- A chain that was never created, presented three times against a platform
that would report device removal: index 0 each time and an empty trace. -/
theorem present_without_surface_witness :
    (PresentInternal (Sample.removedPlatform DXGI_ERROR_DEVICE_HUNG) Sample.uninitialized).result
        = .ok 0
      ∧ (PresentInternal (Sample.removedPlatform DXGI_ERROR_DEVICE_HUNG)
          Sample.uninitialized).trace = []
      ∧ (presentSequence
          [Sample.removedPlatform DXGI_ERROR_DEVICE_HUNG, Sample.platform, Sample.platform]
          Sample.uninitialized).map (fun o => (o.result, o.trace))
        = [(.ok 0, []), (.ok 0, []), (.ok 0, [])] :=
  ⟨(present_without_surface (Sample.removedPlatform DXGI_ERROR_DEVICE_HUNG) Sample.uninitialized
      rfl).1,
    (present_without_surface (Sample.removedPlatform DXGI_ERROR_DEVICE_HUNG) Sample.uninitialized
      rfl).2.1, rfl⟩

/-! ## Resizing: the failure path -/

/-- Claim C3, counterexample. Two resizes of the same swap chain whose
`ResizeBuffers` calls fail with different backend codes, `E_OUTOFMEMORY` and
`DXGI_ERROR_INVALID_CALL`, return the same result, the plain
`ResultCode::Fail`: the result does not carry the backend code. -/
theorem resize_failure_drops_backend_code :
    (ResizeInternal (Sample.resizeFailing Sample.E_OUTOFMEMORY) Sample.fresh
        Sample.extendedDimensions (some Sample.standardDimensions)).result
        = .ok (ResultCode.Fail, some Sample.standardDimensions)
      ∧ (ResizeInternal (Sample.resizeFailing DXGI_ERROR_INVALID_CALL) Sample.fresh
          Sample.extendedDimensions (some Sample.standardDimensions)).result
        = .ok (ResultCode.Fail, some Sample.standardDimensions)
      ∧ SUCCEEDED Sample.E_OUTOFMEMORY = false
      ∧ SUCCEEDED DXGI_ERROR_INVALID_CALL = false
      ∧ Sample.E_OUTOFMEMORY ≠ DXGI_ERROR_INVALID_CALL :=
  ⟨rfl, rfl, by decide, by decide, by decide⟩

/-- Claim C3, amended. When `ResizeBuffers` fails on a live swap chain,
`ResizeInternal` returns `ResultCode::Fail`, the same for every backend code
(the code appears only in the assertion report), and changes nothing: the
native dimensions are not written, the object keeps every field (cached color
space and exclusive-fullscreen flag included), and after the failed call no
further platform call is issued, in particular no color-space, HDR-metadata
or fullscreen-state call. -/
theorem resize_failure_leaves_object (p : Platform) (self : SwapChain)
    (dimensions : SwapChainDimensions) (nativeDimensions : Option SwapChainDimensions)
    (hlive : self.m_swapChain.isSome = true) (hfail : SUCCEEDED p.ResizeBuffers = false) :
    (ResizeInternal p self dimensions nativeDimensions).result
        = .ok (ResultCode.Fail, nativeDimensions)
      ∧ (ResizeInternal p self dimensions nativeDimensions).self = self
      ∧ (ResizeInternal p self dimensions nativeDimensions).trace
        = [.WaitForIdle, .GetDesc,
            .ResizeBuffers dimensions.m_imageCount dimensions.m_imageWidth
              dimensions.m_imageHeight p.GetDesc.BufferDescFormat p.GetDesc.Flags,
            .AssertFailed (.HresultNotASuccess p.ResizeBuffers)] := by
  cases hs : self.m_swapChain with
  | none => simp [hs] at hlive
  | some h => simp [ResizeInternal, hs, AssertSuccess, hfail, Outcome.returns]

/-- A resize to the extended format failing with `E_OUTOFMEMORY` on a fresh
swap chain: `Fail`, and dimensions, color space and fullscreen flag as
before. -/
theorem resize_failure_leaves_object_witness :
    (ResizeInternal (Sample.resizeFailing Sample.E_OUTOFMEMORY) Sample.fresh
        Sample.extendedDimensions (some Sample.standardDimensions)).result
        = .ok (ResultCode.Fail, some Sample.standardDimensions)
      ∧ (ResizeInternal (Sample.resizeFailing Sample.E_OUTOFMEMORY) Sample.fresh
          Sample.extendedDimensions (some Sample.standardDimensions)).self = Sample.fresh :=
  ⟨(resize_failure_leaves_object (Sample.resizeFailing Sample.E_OUTOFMEMORY) Sample.fresh
      Sample.extendedDimensions (some Sample.standardDimensions) rfl (by decide)).1,
    (resize_failure_leaves_object (Sample.resizeFailing Sample.E_OUTOFMEMORY) Sample.fresh
      Sample.extendedDimensions (some Sample.standardDimensions) rfl (by decide)).2.1⟩

/-! ## Display mode -/

/-- Claim C4, at the failing input. A freshly created swap chain (color space
still unset) is configured for the extended format `R10G10B10A2_UNORM` on a
display that reports the wide-gamut color space unsupported. The format
resolves to HDR enabled, the color space is not committed, the assertion
"Unhandled color space for swapchain" fails, and the HDR10 record issued is
built from entry 0 of the chromaticity table, Rec709, not from the wide-gamut
entry. -/
theorem extended_format_unsupported_issues_rec709 :
    (resolveDisplayMode Sample.extendedDimensions.m_imageFormat).2.1 = true
      ∧ (ConfigureDisplayMode Sample.unsupportedPlatform Sample.fresh
          Sample.extendedDimensions).trace
        = [.CheckColorSpaceSupport DXGI_COLOR_SPACE_RGB_FULL_G2084_NONE_P2020,
            .AssertFailed .UnhandledColorSpaceForSwapchain,
            .SetHDRMetaData (.HDR10
              { RedPrimary := (32000, 16500), GreenPrimary := (15000, 30000),
                BluePrimary := (7500, 3000), WhitePoint := (15635, 16450),
                MaxMasteringLuminance := 10000000, MinMasteringLuminance := 10,
                MaxContentLightLevel := 2000, MaxFrameAverageLightLevel := 500 })]
      ∧ issuedHDR10 (ConfigureDisplayMode Sample.unsupportedPlatform Sample.fresh
          Sample.extendedDimensions).trace
        = [HDR10MetaData DisplayChromacityRec709 (Float32.ofDecimal 1000 0)
            (Float32.ofDecimal 1 3) (Float32.ofDecimal 2000 0) (Float32.ofDecimal 500 0)]
      ∧ (HDR10MetaData DisplayChromacityRec2020 (Float32.ofDecimal 1000 0)
            (Float32.ofDecimal 1 3) (Float32.ofDecimal 2000 0) (Float32.ofDecimal 500 0)).RedPrimary
        = (35400, 14600)
      ∧ (ConfigureDisplayMode Sample.unsupportedPlatform Sample.fresh
          Sample.extendedDimensions).self.m_colorSpace = InvalidColorSpace := by
  refine ⟨rfl, ?_, ?_, ?_, rfl⟩
  · decide
  · decide
  · decide

/-- The HDR10 records of a trace made of two parts. -/
theorem issuedHDR10_append (a b : List Event) :
    issuedHDR10 (a ++ b) = issuedHDR10 a ++ issuedHDR10 b := by
  induction a with
  | nil => rfl
  | cons e a ih =>
    cases e with
    | SetHDRMetaData m => cases m <;> simp [issuedHDR10, ih]
    | _ => simp [issuedHDR10, ih]

/-- The assertion report of an `S_OK` check holds no HDR10 record. -/
theorem issuedHDR10_assertOk (hr : HRESULT) (message : AssertMessage) :
    issuedHDR10 (assertOk hr message) = [] := by
  unfold assertOk
  split <;> rfl

/-- The function `EnsureColorSpace` issues no HDR10 record. -/
theorem EnsureColorSpace_issuedHDR10 (p : Platform) (self : SwapChain)
    (colorSpace : DXGI_COLOR_SPACE_TYPE) :
    issuedHDR10 (EnsureColorSpace p self colorSpace).trace = [] := by
  unfold EnsureColorSpace
  cases self.m_swapChain <;>
    simp only [Outcome.faults, Outcome.returns] <;>
    repeat' split
  all_goals simp [issuedHDR10_append, issuedHDR10_assertOk, issuedHDR10]

/-- The function `DisableHdr` issues no HDR10 record. -/
theorem DisableHdr_issuedHDR10 (p : Platform) (self : SwapChain) :
    issuedHDR10 (DisableHdr p self).trace = [] := by
  unfold DisableHdr
  cases self.m_swapChain <;>
    simp [Outcome.faults, Outcome.returns, issuedHDR10_append, issuedHDR10_assertOk, issuedHDR10]

/-- The trace of a sequence is the trace of its first part, followed, when
that part returned, by the trace of the rest. -/
theorem Outcome.andThen_trace {α β : Type} (o : Outcome α) (k : α → SwapChain → Outcome β) :
    (o.andThen k).trace
      = o.trace ++ (match o.result with
          | .error _ => []
          | .ok a => (k a o.self).trace) := by
  unfold Outcome.andThen
  cases o.result <;> simp [Outcome.faults, Outcome.after]

/-- The standard format `R8G8B8A8_UNORM` resolves to the standard-range P709
color space with HDR off, and configuring it issues no HDR10 record, whatever
the cached color space and the platform answers. -/
theorem standard_format_never_hdr (p : Platform) (self : SwapChain)
    (dimensions : SwapChainDimensions)
    (hformat : dimensions.m_imageFormat = Format.R8G8B8A8_UNORM) :
    (resolveDisplayMode dimensions.m_imageFormat).1 = DXGI_COLOR_SPACE_RGB_FULL_G22_NONE_P709
      ∧ (resolveDisplayMode dimensions.m_imageFormat).2.1 = false
      ∧ issuedHDR10 (ConfigureDisplayMode p self dimensions).trace = [] := by
  have hres : resolveDisplayMode dimensions.m_imageFormat
      = (DXGI_COLOR_SPACE_RGB_FULL_G22_NONE_P709, false, []) := by
    simp [resolveDisplayMode, hformat]
  refine ⟨by rw [hres], by rw [hres], ?_⟩
  unfold ConfigureDisplayMode
  simp only [hres]
  split
  · simp only [Outcome.after, Outcome.andThen_trace, issuedHDR10_append,
      EnsureColorSpace_issuedHDR10, List.nil_append]
    cases (EnsureColorSpace p self DXGI_COLOR_SPACE_RGB_FULL_G22_NONE_P709).result with
    | error f => rfl
    | ok a => simp [DisableHdr_issuedHDR10]
  · rfl

/-! ## Color space -/

/-- What `EnsureColorSpace` does on a live swap chain whose support query
returns `S_OK` with the present flag: it sets and caches the color space. -/
theorem EnsureColorSpace_supported (p : Platform) (self : SwapChain)
    (colorSpace : DXGI_COLOR_SPACE_TYPE) (hlive : self.m_swapChain.isSome = true)
    (hres : (p.CheckColorSpaceSupport colorSpace).1 = S_OK)
    (hflag : (p.CheckColorSpaceSupport colorSpace).2
      &&& DXGI_SWAP_CHAIN_COLOR_SPACE_SUPPORT_FLAG_PRESENT ≠ 0) :
    EnsureColorSpace p self colorSpace
      = Outcome.returns () { self with m_colorSpace := colorSpace }
          ((if colorSpace ≠ DXGI_COLOR_SPACE_CUSTOM then []
            else [.AssertFailed .InvalidColorSpaceTypeForSwapchain])
            ++ [.CheckColorSpaceSupport colorSpace, .SetColorSpace1 colorSpace]
            ++ assertOk p.SetColorSpace1 .FailedToSetSwapChainColorSpace) := by
  cases hs : self.m_swapChain with
  | none => simp [hs] at hlive
  | some h =>
    unfold EnsureColorSpace
    simp only [hs, hres, if_true, hflag, ne_eq, not_false_eq_true]

/-- What `EnsureColorSpace` does when there is no live swap chain, or the
support query does not return `S_OK`, or it reports no present support: the
object is unchanged and no event but the query and an assertion report is
issued. -/
theorem EnsureColorSpace_unsupported (p : Platform) (self : SwapChain)
    (colorSpace : DXGI_COLOR_SPACE_TYPE)
    (hnot : ¬ (self.m_swapChain.isSome = true
      ∧ (p.CheckColorSpaceSupport colorSpace).1 = S_OK
      ∧ (p.CheckColorSpaceSupport colorSpace).2
          &&& DXGI_SWAP_CHAIN_COLOR_SPACE_SUPPORT_FLAG_PRESENT ≠ 0)) :
    (EnsureColorSpace p self colorSpace).self = self
      ∧ ∀ e ∈ (EnsureColorSpace p self colorSpace).trace,
          e = .CheckColorSpaceSupport colorSpace
            ∨ e = .AssertFailed .InvalidColorSpaceTypeForSwapchain := by
  cases hs : self.m_swapChain with
  | none =>
    unfold EnsureColorSpace
    simp only [hs, Outcome.faults]
    refine ⟨trivial, ?_⟩
    split <;> simp
  | some h =>
    simp only [hs, Option.isSome_some, true_and, not_and_or] at hnot
    unfold EnsureColorSpace
    simp only [hs]
    rcases hnot with hnot | hnot
    · simp only [hnot, if_false, Outcome.returns]
      refine ⟨trivial, ?_⟩
      split <;> simp
    · simp only [hnot, if_false, ite_self, Outcome.returns]
      refine ⟨trivial, ?_⟩
      split <;> simp

/-- Claim C6. For every swap chain state and every requested color space,
`EnsureColorSpace` issues the platform set-color-space call exactly when the
support query on the live swap chain returns `S_OK` and reports the
present-support flag, and it then caches the requested color space; when the
query fails or reports the color space unsupported (or there is no swap chain
to query), no set call is issued and the object, its cached color space
included, is as before the call. -/
theorem ensureColorSpace_commits_iff_supported (p : Platform) (self : SwapChain)
    (colorSpace : DXGI_COLOR_SPACE_TYPE) :
    (Event.SetColorSpace1 colorSpace ∈ (EnsureColorSpace p self colorSpace).trace
        ↔ (self.m_swapChain.isSome = true
            ∧ (p.CheckColorSpaceSupport colorSpace).1 = S_OK
            ∧ (p.CheckColorSpaceSupport colorSpace).2
                &&& DXGI_SWAP_CHAIN_COLOR_SPACE_SUPPORT_FLAG_PRESENT ≠ 0))
      ∧ ((self.m_swapChain.isSome = true
            ∧ (p.CheckColorSpaceSupport colorSpace).1 = S_OK
            ∧ (p.CheckColorSpaceSupport colorSpace).2
                &&& DXGI_SWAP_CHAIN_COLOR_SPACE_SUPPORT_FLAG_PRESENT ≠ 0) →
          (EnsureColorSpace p self colorSpace).self = { self with m_colorSpace := colorSpace })
      ∧ (¬ (self.m_swapChain.isSome = true
            ∧ (p.CheckColorSpaceSupport colorSpace).1 = S_OK
            ∧ (p.CheckColorSpaceSupport colorSpace).2
                &&& DXGI_SWAP_CHAIN_COLOR_SPACE_SUPPORT_FLAG_PRESENT ≠ 0) →
          (EnsureColorSpace p self colorSpace).self = self
            ∧ ∀ c, Event.SetColorSpace1 c ∉ (EnsureColorSpace p self colorSpace).trace) := by
  have hyes : (self.m_swapChain.isSome = true
            ∧ (p.CheckColorSpaceSupport colorSpace).1 = S_OK
            ∧ (p.CheckColorSpaceSupport colorSpace).2
                &&& DXGI_SWAP_CHAIN_COLOR_SPACE_SUPPORT_FLAG_PRESENT ≠ 0) →
      (EnsureColorSpace p self colorSpace).self = { self with m_colorSpace := colorSpace }
        ∧ Event.SetColorSpace1 colorSpace ∈ (EnsureColorSpace p self colorSpace).trace := by
    rintro ⟨h1, h2, h3⟩
    rw [EnsureColorSpace_supported p self colorSpace h1 h2 h3]
    exact ⟨rfl, by simp [Outcome.returns]⟩
  have hno : ¬ (self.m_swapChain.isSome = true
            ∧ (p.CheckColorSpaceSupport colorSpace).1 = S_OK
            ∧ (p.CheckColorSpaceSupport colorSpace).2
                &&& DXGI_SWAP_CHAIN_COLOR_SPACE_SUPPORT_FLAG_PRESENT ≠ 0) →
      (EnsureColorSpace p self colorSpace).self = self
        ∧ ∀ c, Event.SetColorSpace1 c ∉ (EnsureColorSpace p self colorSpace).trace := by
    intro hnot
    obtain ⟨hself, htrace⟩ := EnsureColorSpace_unsupported p self colorSpace hnot
    refine ⟨hself, fun c hc => ?_⟩
    rcases htrace _ hc with h | h <;> cases h
  refine ⟨⟨fun hmem => ?_, fun h => (hyes h).2⟩, fun h => (hyes h).1, hno⟩
  by_contra hnot
  exact (hno hnot).2 colorSpace hmem

/-! ## HDR metadata -/

/-- The HDR10 record computed from the Rec2020 entry of the chromaticity
table and the bounds 1000, 0.001, 2000 and 500 nits. -/
theorem HDR10MetaData_rec2020 :
    HDR10MetaData DisplayChromacityRec2020 (Float32.ofDecimal 1000 0) (Float32.ofDecimal 1 3)
        (Float32.ofDecimal 2000 0) (Float32.ofDecimal 500 0)
      = { RedPrimary := (35400, 14600), GreenPrimary := (8500, 39850),
          BluePrimary := (6550, 2300), WhitePoint := (15635, 16450),
          MaxMasteringLuminance := 10000000, MinMasteringLuminance := 10,
          MaxContentLightLevel := 2000, MaxFrameAverageLightLevel := 500 } := by
  decide

/-- With the wide-gamut PQ color space cached, `SetHDRMetaData` on a live swap
chain issues one platform call, with the HDR10 record built from the Rec2020
entry of the table. -/
theorem SetHDRMetaData_wide_gamut (p : Platform) (self : SwapChain)
    (a b c d : Float32)
    (hspace : self.m_colorSpace = DXGI_COLOR_SPACE_RGB_FULL_G2084_NONE_P2020)
    (hlive : self.m_swapChain.isSome = true) :
    SetHDRMetaData p self a b c d
      = Outcome.returns () self
          ([.SetHDRMetaData (.HDR10 (HDR10MetaData DisplayChromacityRec2020 a b c d))]
            ++ assertOk p.SetHDRMetaData .FailedToSetHdrMetaData) := by
  cases hs : self.m_swapChain with
  | none => simp [hs] at hlive
  | some h =>
    have hsel : selectChroma self.m_colorSpace = (1, []) := by rw [hspace]; rfl
    unfold SetHDRMetaData
    simp only [hs, hsel]
    rfl

/-- Claim C5. When the cached color space is the wide-gamut PQ space
`RGB_FULL_G2084_NONE_P2020`, `SetHDRMetaData(1000, 0.001, 2000, 500)` on a
live swap chain commits exactly one HDR10 record, with RedPrimary
[35400, 14600], GreenPrimary [8500, 39850], BluePrimary [6550, 2300],
WhitePoint [15635, 16450], MaxMasteringLuminance 10000000,
MinMasteringLuminance 10, MaxContentLightLevel 2000 and
MaxFrameAverageLightLevel 500; each scaled chromaticity, before the cast to
16 bits, is below 65536, so no cast wraps around. The arithmetic is that of
binary32. -/
theorem hdr10_record_wide_gamut (p : Platform) (self : SwapChain)
    (hspace : self.m_colorSpace = DXGI_COLOR_SPACE_RGB_FULL_G2084_NONE_P2020)
    (hlive : self.m_swapChain.isSome = true) :
    issuedHDR10 (SetHDRMetaData p self (Float32.ofDecimal 1000 0) (Float32.ofDecimal 1 3)
        (Float32.ofDecimal 2000 0) (Float32.ofDecimal 500 0)).trace
        = [{ RedPrimary := (35400, 14600), GreenPrimary := (8500, 39850),
             BluePrimary := (6550, 2300), WhitePoint := (15635, 16450),
             MaxMasteringLuminance := 10000000, MinMasteringLuminance := 10,
             MaxContentLightLevel := 2000, MaxFrameAverageLightLevel := 500 }]
      ∧ (SetHDRMetaData p self (Float32.ofDecimal 1000 0) (Float32.ofDecimal 1 3)
          (Float32.ofDecimal 2000 0) (Float32.ofDecimal 500 0)).result = .ok ()
      ∧ ((DisplayChromacityRec2020.RedX.mul (Float32.ofDecimal 500000 1)).trunc < 2 ^ 16
        ∧ (DisplayChromacityRec2020.RedY.mul (Float32.ofDecimal 500000 1)).trunc < 2 ^ 16
        ∧ (DisplayChromacityRec2020.GreenX.mul (Float32.ofDecimal 500000 1)).trunc < 2 ^ 16
        ∧ (DisplayChromacityRec2020.GreenY.mul (Float32.ofDecimal 500000 1)).trunc < 2 ^ 16
        ∧ (DisplayChromacityRec2020.BlueX.mul (Float32.ofDecimal 500000 1)).trunc < 2 ^ 16
        ∧ (DisplayChromacityRec2020.BlueY.mul (Float32.ofDecimal 500000 1)).trunc < 2 ^ 16
        ∧ (DisplayChromacityRec2020.WhiteX.mul (Float32.ofDecimal 500000 1)).trunc < 2 ^ 16
        ∧ (DisplayChromacityRec2020.WhiteY.mul (Float32.ofDecimal 500000 1)).trunc < 2 ^ 16) := by
  rw [SetHDRMetaData_wide_gamut p self _ _ _ _ hspace hlive]
  refine ⟨?_, rfl, by decide⟩
  show issuedHDR10 ([Event.SetHDRMetaData (.HDR10 _)] ++ assertOk _ _) = _
  rw [issuedHDR10_append, issuedHDR10_assertOk, HDR10MetaData_rec2020]
  rfl

/-- The wide-gamut sample chain: the record committed has the red primary
[35400, 14600] and the luminance bounds 10000000 and 10. -/
theorem hdr10_record_wide_gamut_witness :
    issuedHDR10 (SetHDRMetaData Sample.platform Sample.wideGamut (Float32.ofDecimal 1000 0)
        (Float32.ofDecimal 1 3) (Float32.ofDecimal 2000 0) (Float32.ofDecimal 500 0)).trace
      = [{ RedPrimary := (35400, 14600), GreenPrimary := (8500, 39850),
           BluePrimary := (6550, 2300), WhitePoint := (15635, 16450),
           MaxMasteringLuminance := 10000000, MinMasteringLuminance := 10,
           MaxContentLightLevel := 2000, MaxFrameAverageLightLevel := 500 }] :=
  (hdr10_record_wide_gamut Sample.platform Sample.wideGamut rfl rfl).1

/-- The extended format `R10G10B10A2_UNORM` resolves to the wide-gamut PQ
color space with HDR on. When that color space is not yet cached and the
display supports it, configuring the format commits the color space and
issues one HDR10 record, built from the Rec2020 entry of the table. -/
theorem extended_format_committed_wide_gamut (p : Platform) (self : SwapChain)
    (dimensions : SwapChainDimensions)
    (hformat : dimensions.m_imageFormat = Format.R10G10B10A2_UNORM)
    (hlive : self.m_swapChain.isSome = true)
    (hprior : self.m_colorSpace ≠ DXGI_COLOR_SPACE_RGB_FULL_G2084_NONE_P2020)
    (hres : (p.CheckColorSpaceSupport DXGI_COLOR_SPACE_RGB_FULL_G2084_NONE_P2020).1 = S_OK)
    (hflag : (p.CheckColorSpaceSupport DXGI_COLOR_SPACE_RGB_FULL_G2084_NONE_P2020).2
      &&& DXGI_SWAP_CHAIN_COLOR_SPACE_SUPPORT_FLAG_PRESENT ≠ 0) :
    (resolveDisplayMode dimensions.m_imageFormat).1 = DXGI_COLOR_SPACE_RGB_FULL_G2084_NONE_P2020
      ∧ (resolveDisplayMode dimensions.m_imageFormat).2.1 = true
      ∧ issuedHDR10 (ConfigureDisplayMode p self dimensions).trace
        = [HDR10MetaData DisplayChromacityRec2020 (Float32.ofDecimal 1000 0)
            (Float32.ofDecimal 1 3) (Float32.ofDecimal 2000 0) (Float32.ofDecimal 500 0)]
      ∧ (ConfigureDisplayMode p self dimensions).self.m_colorSpace
        = DXGI_COLOR_SPACE_RGB_FULL_G2084_NONE_P2020 := by
  have hresolve : resolveDisplayMode dimensions.m_imageFormat
      = (DXGI_COLOR_SPACE_RGB_FULL_G2084_NONE_P2020, true, []) := by
    simp [resolveDisplayMode, hformat]
  have hset := SetHDRMetaData_wide_gamut p
    { self with m_colorSpace := DXGI_COLOR_SPACE_RGB_FULL_G2084_NONE_P2020 }
    (Float32.ofDecimal 1000 0) (Float32.ofDecimal 1 3) (Float32.ofDecimal 2000 0)
    (Float32.ofDecimal 500 0) rfl hlive
  have hconf : ConfigureDisplayMode p self dimensions
      = Outcome.after []
          (Outcome.after
            (EnsureColorSpace p self DXGI_COLOR_SPACE_RGB_FULL_G2084_NONE_P2020).trace
            (SetHDRMetaData p
              { self with m_colorSpace := DXGI_COLOR_SPACE_RGB_FULL_G2084_NONE_P2020 }
              (Float32.ofDecimal 1000 0) (Float32.ofDecimal 1 3) (Float32.ofDecimal 2000 0)
              (Float32.ofDecimal 500 0))) := by
    unfold ConfigureDisplayMode
    simp only [hresolve, ne_eq, hprior, not_false_eq_true, if_true, Outcome.andThen,
      EnsureColorSpace_supported p self _ hlive hres hflag, Outcome.returns]
  refine ⟨by rw [hresolve], by rw [hresolve], ?_, ?_⟩
  · rw [hconf, hset]
    simp only [Outcome.after, Outcome.returns, List.nil_append, issuedHDR10_append,
      EnsureColorSpace_issuedHDR10]
    show _ :: issuedHDR10 (assertOk _ _) = _
    rw [issuedHDR10_assertOk]
  · rw [hconf, hset]
    rfl

/-! ## Creation and the preferred fullscreen mode -/

/-- The object a sequence leaves: that of its first part when it faulted,
that of the rest otherwise. -/
theorem Outcome.andThen_self {α β : Type} (o : Outcome α) (k : α → SwapChain → Outcome β) :
    (o.andThen k).self
      = (match o.result with
          | .error _ => o.self
          | .ok a => (k a o.self).self) := by
  unfold Outcome.andThen
  cases o.result <;> simp [Outcome.faults, Outcome.after]

/-- The function `EnsureColorSpace` changes at most the cached color space. -/
theorem EnsureColorSpace_frame (p : Platform) (self : SwapChain)
    (colorSpace : DXGI_COLOR_SPACE_TYPE) :
    (EnsureColorSpace p self colorSpace).self
      = { self with m_colorSpace := (EnsureColorSpace p self colorSpace).self.m_colorSpace } := by
  obtain ⟨handle, _, _, _, _, _, _⟩ := self
  unfold EnsureColorSpace
  cases handle with
  | none => rfl
  | some h =>
    simp only [Outcome.returns]
    repeat' split
    all_goals rfl

/-- The function `SetHDRMetaData` leaves the object as it was. -/
theorem SetHDRMetaData_self (p : Platform) (self : SwapChain) (a b c d : Float32) :
    (SetHDRMetaData p self a b c d).self = self := by
  obtain ⟨handle, _, _, _, _, _, _⟩ := self
  unfold SetHDRMetaData
  cases handle <;> rfl

/-- The function `DisableHdr` leaves the object as it was. -/
theorem DisableHdr_self (p : Platform) (self : SwapChain) : (DisableHdr p self).self = self := by
  obtain ⟨handle, _, _, _, _, _, _⟩ := self
  unfold DisableHdr
  cases handle <;> rfl

/-- The function `ConfigureDisplayMode` changes at most the cached color
space. -/
theorem ConfigureDisplayMode_frame (p : Platform) (self : SwapChain)
    (dimensions : SwapChainDimensions) :
    (ConfigureDisplayMode p self dimensions).self
      = { self with
          m_colorSpace := (ConfigureDisplayMode p self dimensions).self.m_colorSpace } := by
  unfold ConfigureDisplayMode
  simp only
  split
  · simp only [Outcome.after, Outcome.andThen_self]
    cases (EnsureColorSpace p self (resolveDisplayMode dimensions.m_imageFormat).1).result with
    | error f => exact EnsureColorSpace_frame p self _
    | ok a =>
      simp only
      split
      · rw [SetHDRMetaData_self]
        exact EnsureColorSpace_frame p self _
      · rw [DisableHdr_self]
        exact EnsureColorSpace_frame p self _
  · rfl

/-- The window association leaves the object as it was. -/
theorem makeWindowAssociation_self (p : Platform) (self : SwapChain) (window : Nat) :
    (makeWindowAssociation p self window).self = self := by
  obtain ⟨handle, _, _, _, _, _, _⟩ := self
  unfold makeWindowAssociation
  cases handle with
  | none => rfl
  | some h =>
    simp only
    split <;> rfl

/-- Once the factory is created, `InitInternal` leaves in
`m_isTearingSupported` the answer of the capability check, however the rest
of the creation goes. -/
theorem InitInternal_tearing (FrameCountMax : Nat) (ConvertFormat : Format → Nat)
    (p : Platform) (self : SwapChain) (descriptor : SwapChainDescriptor)
    (nativeDimensions : Option SwapChainDimensions)
    (hfactory : SUCCEEDED p.CreateDXGIFactory2 = true) :
    (InitInternal FrameCountMax ConvertFormat p self descriptor
        nativeDimensions).self.m_isTearingSupported
      = (SUCCEEDED p.CheckFeatureSupport.1 && BOOL.toBool p.CheckFeatureSupport.2) := by
  unfold InitInternal
  simp only [AssertSuccess, hfactory, if_true]
  split
  · cases nativeDimensions with
    | none => rfl
    | some d =>
      simp only [Option.map_some', Outcome.after, Outcome.andThen_self]
      split
      · rw [ConfigureDisplayMode_frame]
      · split
        · rw [Outcome.andThen_self]
          split
          · rw [makeWindowAssociation_self, ConfigureDisplayMode_frame]
          · simp only [Outcome.returns]
            rw [makeWindowAssociation_self, ConfigureDisplayMode_frame]
        · simp only [Outcome.returns]
          rw [ConfigureDisplayMode_frame]
  · rfl

/-- Claim C7. For every outcome of the tearing capability check made in
`InitInternal` (its result code and the allow-tearing value it reports),
after `InitInternal` the query `IsExclusiveFullScreenPreferred` answers true
exactly when the tearing probe result is false; the probe result, kept in
`m_isTearingSupported`, is true exactly when the check succeeded and reported
tearing allowed. In particular a failed check yields tearing unsupported and
exclusive fullscreen preferred. -/
theorem exclusive_preferred_iff_no_tearing (FrameCountMax : Nat) (ConvertFormat : Format → Nat)
    (p : Platform) (self : SwapChain) (descriptor : SwapChainDescriptor)
    (nativeDimensions : Option SwapChainDimensions)
    (hfactory : SUCCEEDED p.CreateDXGIFactory2 = true) :
    (IsExclusiveFullScreenPreferred
          (InitInternal FrameCountMax ConvertFormat p self descriptor nativeDimensions).self = true
        ↔ (InitInternal FrameCountMax ConvertFormat p self descriptor
            nativeDimensions).self.m_isTearingSupported = false)
      ∧ ((InitInternal FrameCountMax ConvertFormat p self descriptor
            nativeDimensions).self.m_isTearingSupported = true
        ↔ (SUCCEEDED p.CheckFeatureSupport.1 = true ∧ p.CheckFeatureSupport.2 ≠ 0))
      ∧ (SUCCEEDED p.CheckFeatureSupport.1 = false →
          (InitInternal FrameCountMax ConvertFormat p self descriptor
              nativeDimensions).self.m_isTearingSupported = false
            ∧ IsExclusiveFullScreenPreferred
              (InitInternal FrameCountMax ConvertFormat p self descriptor
                nativeDimensions).self = true) := by
  have h := InitInternal_tearing FrameCountMax ConvertFormat p self descriptor nativeDimensions
    hfactory
  refine ⟨by simp [IsExclusiveFullScreenPreferred], ?_, ?_⟩
  · rw [h]
    simp [BOOL.toBool]
  · intro hfail
    simp [IsExclusiveFullScreenPreferred, h, hfail]

/-- Creation on a display whose capability check fails with `E_FAIL` while
reporting the value 1: tearing is unsupported, exclusive fullscreen is
preferred, and creation itself succeeds. -/
theorem exclusive_preferred_iff_no_tearing_witness :
    IsExclusiveFullScreenPreferred
        (InitInternal 3 (fun _ => 28)
          { Sample.platform with CheckFeatureSupport := (Sample.E_FAIL, 1) } Sample.uninitialized
          Sample.descriptor (some Sample.standardDimensions)).self = true
      ∧ (InitInternal 3 (fun _ => 28)
          { Sample.platform with CheckFeatureSupport := (Sample.E_FAIL, 1) } Sample.uninitialized
          Sample.descriptor (some Sample.standardDimensions)).result
        = .ok (ResultCode.Success, some Sample.standardDimensions) :=
  ⟨((exclusive_preferred_iff_no_tearing 3 (fun _ => 28)
      { Sample.platform with CheckFeatureSupport := (Sample.E_FAIL, 1) } Sample.uninitialized
      Sample.descriptor (some Sample.standardDimensions) (by decide)).2.2 (by decide)).2, rfl⟩

/-! ## Destruction -/

/-- The diagnostic records of a trace made of two parts. -/
theorem diagnostics_append (a b : List Event) :
    diagnostics (a ++ b) = diagnostics a ++ diagnostics b := by
  induction a with
  | nil => rfl
  | cons e a ih => cases e <;> simp [diagnostics, ih]

/-- The events `PresentInternal` issues on a live swap chain when the present
fails with device removal: the present, the reason query, what the `switch`
prints, and, with crash capture active, the sleep and the scope report. -/
theorem PresentInternal_trace_removed (p : Platform) (self : SwapChain)
    (hlive : self.m_swapChain.isSome = true) (hremoved : p.Present = DXGI_ERROR_DEVICE_REMOVED) :
    (PresentInternal p self).trace
      = [.Present self.descriptor.m_verticalSyncInterval 0, .GetDeviceRemovedReason]
          ++ deviceRemovedTrace p.GetDeviceRemovedReason
          ++ (if p.IsAftermathInitialized then [.Sleep 3000, .OutputLastScopeExecutingOnGPU]
              else []) := by
  cases hs : self.m_swapChain with
  | none => simp [hs] at hlive
  | some h =>
    unfold PresentInternal
    simp only [hs, hremoved, if_true, onDeviceRemoved]
    split <;> simp [Outcome.faults, Outcome.returns]

/-- What the `switch` prints: for a code it has a label for, one record, of
the class the specification names; for any other code, nothing. -/
theorem deviceRemovedTrace_diagnostics (deviceRemovedResult : HRESULT) :
    (deviceRemovedResult ∈ switchLabels →
        deviceRemovedTrace deviceRemovedResult ≠ []
          ∧ (diagnostics (deviceRemovedTrace deviceRemovedResult)).map
              TraceMessage.classification
            = [specClassification deviceRemovedResult])
      ∧ (deviceRemovedResult ∉ switchLabels → deviceRemovedTrace deviceRemovedResult = []) := by
  constructor
  · intro hmem
    simp only [switchLabels, List.mem_cons, List.mem_singleton, List.not_mem_nil, or_false] at hmem
    rcases hmem with h | h | h | h | h | h | h <;> subst h <;> exact ⟨by decide, by decide⟩
  · intro hnot
    simp only [switchLabels, List.mem_cons, List.mem_singleton, List.not_mem_nil, or_false,
      not_or] at hnot
    obtain ⟨h1, h2, h3, h4, h5, h6, h7⟩ := hnot
    simp [deviceRemovedTrace, h1, h2, h3, h4, h5, h6, h7]

/-- Claim C9, counterexample. A present on a live swap chain fails with
device removal and the device gives the unrecognized reason `E_FAIL`, which
the specification classifies `Unexpected`: no diagnostic record is emitted,
not one. The rotated index is still returned. -/
theorem unrecognized_reason_emits_nothing :
    diagnostics (PresentInternal (Sample.removedPlatform Sample.E_FAIL) Sample.fresh).trace = []
      ∧ (diagnostics
          (PresentInternal (Sample.removedPlatform Sample.E_FAIL) Sample.fresh).trace).length = 0
      ∧ specClassification Sample.E_FAIL = Classification.Unexpected
      ∧ (PresentInternal (Sample.removedPlatform Sample.E_FAIL) Sample.fresh).result = .ok 1 :=
  ⟨by decide, by decide, by decide, rfl⟩

/-- Claim C9, amended. After a device-removed present failure on a live swap
chain, for each of the seven codes the `switch` names the device-loss
handling emits exactly one diagnostic record, classified DeviceHung,
DeviceRemoved, DeviceReset, DriverInternalError, InvalidCall or AccessDenied
for the matching `DXGI_ERROR_` code and Unexpected for `S_OK`; for every
other code it emits no diagnostic record. The classification is a total
function of the code: in every case at most one record is emitted and the
call does not fail on its account. -/
theorem device_removed_diagnostics (p : Platform) (self : SwapChain)
    (hlive : self.m_swapChain.isSome = true) (hremoved : p.Present = DXGI_ERROR_DEVICE_REMOVED) :
    (p.GetDeviceRemovedReason ∈ switchLabels →
        (diagnostics (PresentInternal p self).trace).map TraceMessage.classification
          = [specClassification p.GetDeviceRemovedReason])
      ∧ (p.GetDeviceRemovedReason ∉ switchLabels →
          diagnostics (PresentInternal p self).trace = [])
      ∧ (diagnostics (PresentInternal p self).trace).length ≤ 1
      ∧ (self.imageCount ≠ 0 →
          (PresentInternal p self).result
            = .ok ((self.currentImageIndex + 1) % 2 ^ 32 % self.imageCount)) := by
  have htrace : diagnostics (PresentInternal p self).trace
      = diagnostics (deviceRemovedTrace p.GetDeviceRemovedReason) := by
    rw [PresentInternal_trace_removed p self hlive hremoved, diagnostics_append,
      diagnostics_append]
    have hlast : diagnostics (if p.IsAftermathInitialized then
        [Event.Sleep 3000, Event.OutputLastScopeExecutingOnGPU] else []) = [] := by
      split <;> rfl
    rw [hlast, List.append_nil]
    rfl
  obtain ⟨hyes, hno⟩ := deviceRemovedTrace_diagnostics p.GetDeviceRemovedReason
  refine ⟨fun h => by rw [htrace]; exact (hyes h).2, fun h => by rw [htrace, hno h]; rfl, ?_,
    fun h => (PresentInternal_live p self hlive h).1⟩
  by_cases hmem : p.GetDeviceRemovedReason ∈ switchLabels
  · have h := congrArg List.length (hyes hmem).2
    rw [List.length_map] at h
    rw [htrace, h]
    exact Nat.le_refl _
  · rw [htrace, hno hmem]
    exact Nat.zero_le _

/-- A present failing with device removal for the reason
`DXGI_ERROR_DEVICE_HUNG`, crash capture active: one record, DeviceHung. -/
theorem device_removed_diagnostics_witness :
    (diagnostics
        (PresentInternal (Sample.removedPlatform DXGI_ERROR_DEVICE_HUNG) Sample.fresh).trace).map
        TraceMessage.classification
      = [Classification.DeviceHung] :=
  (device_removed_diagnostics (Sample.removedPlatform DXGI_ERROR_DEVICE_HUNG) Sample.fresh rfl
    rfl).1 (by decide)

/-! ## Resizing: the order of calls -/

/-- The assertion report of an `S_OK` check holds display-mode events only. -/
theorem assertOk_displayMode (hr : HRESULT) (message : AssertMessage) :
    (assertOk hr message).all Event.isDisplayModeEvent = true := by
  unfold assertOk
  split <;> rfl

/-- The function `EnsureColorSpace` issues display-mode events only. -/
theorem EnsureColorSpace_displayMode (p : Platform) (self : SwapChain)
    (colorSpace : DXGI_COLOR_SPACE_TYPE) :
    (EnsureColorSpace p self colorSpace).trace.all Event.isDisplayModeEvent = true := by
  unfold EnsureColorSpace
  cases self.m_swapChain with
  | none =>
    simp only [Outcome.faults]
    split <;> rfl
  | some h =>
    simp only [Outcome.returns]
    repeat' split
    all_goals simp [List.all_append, assertOk_displayMode, Event.isDisplayModeEvent]

/-- The function `SetHDRMetaData` issues display-mode events only. -/
theorem SetHDRMetaData_displayMode (p : Platform) (self : SwapChain) (a b c d : Float32) :
    (SetHDRMetaData p self a b c d).trace.all Event.isDisplayModeEvent = true := by
  have hsel : (selectChroma self.m_colorSpace).2.all Event.isDisplayModeEvent = true := by
    unfold selectChroma
    repeat' split
    all_goals rfl
  unfold SetHDRMetaData
  cases self.m_swapChain with
  | none => simpa [Outcome.faults] using hsel
  | some h =>
    simp only [Outcome.returns, List.all_append, hsel, assertOk_displayMode, Bool.and_true,
      Bool.true_and]
    rfl

/-- The function `DisableHdr` issues display-mode events only. -/
theorem DisableHdr_displayMode (p : Platform) (self : SwapChain) :
    (DisableHdr p self).trace.all Event.isDisplayModeEvent = true := by
  unfold DisableHdr
  cases self.m_swapChain with
  | none => rfl
  | some h =>
    simp only [Outcome.returns, List.all_append, assertOk_displayMode, Bool.and_true]
    rfl

/-- The function `ConfigureDisplayMode` issues display-mode events only: no
idle wait and no buffer recreation among them. -/
theorem ConfigureDisplayMode_displayMode (p : Platform) (self : SwapChain)
    (dimensions : SwapChainDimensions) :
    (ConfigureDisplayMode p self dimensions).trace.all Event.isDisplayModeEvent = true := by
  have hres : (resolveDisplayMode dimensions.m_imageFormat).2.2.all Event.isDisplayModeEvent
      = true := by
    unfold resolveDisplayMode
    repeat' split
    all_goals rfl
  unfold ConfigureDisplayMode
  simp only
  split
  · simp only [Outcome.after, Outcome.andThen_trace, List.all_append, hres,
      EnsureColorSpace_displayMode, Bool.true_and]
    cases (EnsureColorSpace p self (resolveDisplayMode dimensions.m_imageFormat).1).result with
    | error f => rfl
    | ok a =>
      simp only
      split
      · exact SetHDRMetaData_displayMode _ _ _ _ _ _
      · exact DisableHdr_displayMode _ _
  · exact hres

/-- The events of `ResizeInternal` on a live swap chain: the idle wait, the
descriptor read, the buffer recreation with the format and flags of the
descriptor just read, and then only display-mode events and the
fullscreen-state query. -/
theorem ResizeInternal_trace_live (p : Platform) (self : SwapChain)
    (dimensions : SwapChainDimensions) (nativeDimensions : Option SwapChainDimensions)
    (hlive : self.m_swapChain.isSome = true) :
    ∃ tail, (ResizeInternal p self dimensions nativeDimensions).trace
        = .WaitForIdle :: .GetDesc
            :: .ResizeBuffers dimensions.m_imageCount dimensions.m_imageWidth
                dimensions.m_imageHeight p.GetDesc.BufferDescFormat p.GetDesc.Flags
            :: tail
      ∧ tail.all Event.followsResize = true := by
  have hweak : ∀ t : List Event, t.all Event.isDisplayModeEvent = true →
      t.all Event.followsResize = true := by
    intro t ht
    rw [List.all_eq_true] at ht ⊢
    intro e he
    have h := ht e he
    cases e <;> first | rfl | exact h
  have hassert : (AssertSuccess p.ResizeBuffers).2.all Event.followsResize = true := by
    unfold AssertSuccess
    split <;> rfl
  cases hs : self.m_swapChain with
  | none => simp [hs] at hlive
  | some h =>
    unfold ResizeInternal
    simp only [hs]
    split
    · refine ⟨(AssertSuccess p.ResizeBuffers).2
        ++ ((ConfigureDisplayMode p self dimensions).trace
          ++ (match (ConfigureDisplayMode p self dimensions).result with
              | .error _ => []
              | .ok _ => [Event.GetFullscreenState])), ?_, ?_⟩
      · simp only [Outcome.after, Outcome.andThen_trace, Outcome.returns, List.cons_append,
          List.nil_append, List.append_assoc]
        cases (ConfigureDisplayMode p self dimensions).result <;> rfl
      · simp only [List.all_append, hassert, hweak _ (ConfigureDisplayMode_displayMode p self
          dimensions), Bool.true_and]
        cases (ConfigureDisplayMode p self dimensions).result <;> rfl
    · exact ⟨(AssertSuccess p.ResizeBuffers).2, rfl, hassert⟩

/-- Claim C10. In every execution of `ResizeInternal` the trace begins with
the device-idle wait `WaitForIdle` and holds no other: the wait occurs
exactly once, and every buffer recreation `ResizeBuffers` lies in the part
after it, strictly later. Every `ResizeBuffers` call in the trace passes the
format and the flags of the descriptor read from the live swap chain with
`GetDesc` (only count, width and height come from the caller's dimensions),
and on a live swap chain the call is indeed made, right after that read. -/
theorem resize_idle_wait_precedes_recreation (p : Platform) (self : SwapChain)
    (dimensions : SwapChainDimensions) (nativeDimensions : Option SwapChainDimensions) :
    ∃ rest, (ResizeInternal p self dimensions nativeDimensions).trace = .WaitForIdle :: rest
      ∧ Event.WaitForIdle ∉ rest
      ∧ (∀ count width height format flags,
          Event.ResizeBuffers count width height format flags ∈ rest →
            format = p.GetDesc.BufferDescFormat ∧ flags = p.GetDesc.Flags
              ∧ count = dimensions.m_imageCount ∧ width = dimensions.m_imageWidth
              ∧ height = dimensions.m_imageHeight)
      ∧ (self.m_swapChain.isSome = true →
          ∃ tail, rest = .GetDesc
              :: .ResizeBuffers dimensions.m_imageCount dimensions.m_imageWidth
                  dimensions.m_imageHeight p.GetDesc.BufferDescFormat p.GetDesc.Flags
              :: tail) := by
  cases hs : self.m_swapChain with
  | none =>
    refine ⟨[], ?_, by simp, by simp, by simp⟩
    unfold ResizeInternal
    simp only [hs, Outcome.faults]
  | some handle =>
    have hlive : self.m_swapChain.isSome = true := by simp [hs]
    obtain ⟨tail, htrace, htail⟩ :=
      ResizeInternal_trace_live p self dimensions nativeDimensions hlive
    rw [List.all_eq_true] at htail
    refine ⟨_, htrace, ?_, ?_, fun _ => ⟨tail, rfl⟩⟩
    · intro hmem
      simp only [List.mem_cons, reduceCtorEq, false_or] at hmem
      exact absurd (htail _ hmem) (by decide)
    · intro count width height format flags hmem
      simp only [List.mem_cons, reduceCtorEq, false_or] at hmem
      rcases hmem with hmem | hmem
      · injection hmem with h1 h2 h3 h4 h5
        exact ⟨h4, h5, h1, h2, h3⟩
      · exact absurd (htail _ hmem) (by simp [Event.followsResize, Event.isDisplayModeEvent])

/-! ## Creation: the image count -/

/-- The buffer counts of a trace made of two parts. -/
theorem createdBufferCounts_append (a b : List Event) :
    createdBufferCounts (a ++ b) = createdBufferCounts a ++ createdBufferCounts b := by
  induction a with
  | nil => rfl
  | cons e a ih => cases e <;> simp [createdBufferCounts, ih]

/-- A trace of display-mode events holds no swap chain creation. -/
theorem createdBufferCounts_displayMode (t : List Event)
    (h : t.all Event.isDisplayModeEvent = true) : createdBufferCounts t = [] := by
  induction t with
  | nil => rfl
  | cons e t ih =>
    simp only [List.all_cons, Bool.and_eq_true] at h
    cases e <;> first | exact ih h.2 | exact absurd h.1 (by simp [Event.isDisplayModeEvent])

/-- The window association holds no swap chain creation. -/
theorem makeWindowAssociation_createdBufferCounts (p : Platform) (self : SwapChain)
    (window : Nat) : createdBufferCounts (makeWindowAssociation p self window).trace = [] := by
  unfold makeWindowAssociation
  cases self.m_swapChain with
  | none => rfl
  | some h =>
    simp only
    split
    · simp only [Outcome.returns, AssertSuccess]
      split <;> rfl
    · rfl

/-- Once the factory is created, `InitInternal` creates the swap chain once,
with `FrameCountMax` buffers. -/
theorem InitInternal_createdBufferCounts (FrameCountMax : Nat) (ConvertFormat : Format → Nat)
    (p : Platform) (self : SwapChain) (descriptor : SwapChainDescriptor)
    (nativeDimensions : Option SwapChainDimensions)
    (hfactory : SUCCEEDED p.CreateDXGIFactory2 = true) :
    createdBufferCounts
        (InitInternal FrameCountMax ConvertFormat p self descriptor nativeDimensions).trace
      = [FrameCountMax] := by
  unfold InitInternal
  simp only [AssertSuccess, hfactory, if_true]
  split
  · cases nativeDimensions with
    | none => rfl
    | some d =>
      simp only [Option.map_some', Outcome.after, Outcome.andThen_trace,
        createdBufferCounts_append,
        createdBufferCounts_displayMode _ (ConfigureDisplayMode_displayMode p _ _)]
      split
      · rfl
      · split
        · rw [Outcome.andThen_trace, createdBufferCounts_append,
            makeWindowAssociation_createdBufferCounts]
          split <;> rfl
        · rfl
  · rfl

/-- The result of a sequence: the fault of its first part, or the result of
the rest. -/
theorem Outcome.andThen_result {α β : Type} (o : Outcome α) (k : α → SwapChain → Outcome β) :
    (o.andThen k).result
      = (match o.result with
          | .error f => .error f
          | .ok a => (k a o.self).result) := by
  unfold Outcome.andThen
  cases o.result <;> simp [Outcome.faults, Outcome.after]

/-- On a live swap chain `EnsureColorSpace` returns. -/
theorem EnsureColorSpace_live_result (p : Platform) (self : SwapChain)
    (colorSpace : DXGI_COLOR_SPACE_TYPE) (hlive : self.m_swapChain.isSome = true) :
    (EnsureColorSpace p self colorSpace).result = .ok () := by
  cases hs : self.m_swapChain with
  | none => simp [hs] at hlive
  | some h =>
    unfold EnsureColorSpace
    simp only [hs, Outcome.returns]
    repeat' split
    all_goals rfl

/-- On a live swap chain `SetHDRMetaData` returns. -/
theorem SetHDRMetaData_live_result (p : Platform) (self : SwapChain) (a b c d : Float32)
    (hlive : self.m_swapChain.isSome = true) :
    (SetHDRMetaData p self a b c d).result = .ok () := by
  cases hs : self.m_swapChain with
  | none => simp [hs] at hlive
  | some h =>
    unfold SetHDRMetaData
    simp only [hs, Outcome.returns]

/-- On a live swap chain `DisableHdr` returns. -/
theorem DisableHdr_live_result (p : Platform) (self : SwapChain)
    (hlive : self.m_swapChain.isSome = true) : (DisableHdr p self).result = .ok () := by
  cases hs : self.m_swapChain with
  | none => simp [hs] at hlive
  | some h =>
    unfold DisableHdr
    simp only [hs, Outcome.returns]

/-- On a live swap chain `ConfigureDisplayMode` returns. -/
theorem ConfigureDisplayMode_live_result (p : Platform) (self : SwapChain)
    (dimensions : SwapChainDimensions) (hlive : self.m_swapChain.isSome = true) :
    (ConfigureDisplayMode p self dimensions).result = .ok () := by
  have hkeep : ∀ colorSpace, (EnsureColorSpace p self colorSpace).self.m_swapChain.isSome
      = true := by
    intro colorSpace
    rw [EnsureColorSpace_frame]
    exact hlive
  unfold ConfigureDisplayMode
  simp only
  split
  · simp only [Outcome.after, Outcome.andThen_result, EnsureColorSpace_live_result p self _ hlive]
    split
    · exact SetHDRMetaData_live_result p _ _ _ _ _ (hkeep _)
    · exact DisableHdr_live_result p _ (hkeep _)
  · rfl

/-- When `InitInternal` returns, it returns the result code of the swap chain
creation and, in the native dimensions, the dimensions of the descriptor. -/
theorem InitInternal_result (FrameCountMax : Nat) (ConvertFormat : Format → Nat)
    (p : Platform) (self : SwapChain) (descriptor : SwapChainDescriptor)
    (nativeDimensions : Option SwapChainDimensions) :
    (InitInternal FrameCountMax ConvertFormat p self descriptor nativeDimensions).result
        = .ok (p.CreateSwapChain.1, nativeDimensions.map fun _ => descriptor.m_dimensions)
      ∨ ∃ f, (InitInternal FrameCountMax ConvertFormat p self descriptor
          nativeDimensions).result = .error f := by
  unfold InitInternal
  simp only
  split
  · split
    · cases nativeDimensions with
      | none => exact Or.inr ⟨_, rfl⟩
      | some d =>
        simp only [Option.map_some', Outcome.after, Outcome.andThen_result]
        cases (ConfigureDisplayMode p _ descriptor.m_dimensions).result with
        | error f => exact Or.inr ⟨_, rfl⟩
        | ok a =>
          simp only
          split
          · rw [Outcome.andThen_result]
            cases (makeWindowAssociation p _ descriptor.m_window).result with
            | error f => exact Or.inr ⟨_, rfl⟩
            | ok a => exact Or.inl rfl
          · exact Or.inl rfl
    · exact Or.inl rfl
  · exact Or.inr ⟨_, rfl⟩

/-- On a live swap chain whose factory can be found, the window association
returns. -/
theorem makeWindowAssociation_live_result (p : Platform) (self : SwapChain) (window : Nat)
    (hlive : self.m_swapChain.isSome = true) (hparent : p.GetParent = true) :
    (makeWindowAssociation p self window).result = .ok () := by
  cases hs : self.m_swapChain with
  | none => simp [hs] at hlive
  | some h =>
    unfold makeWindowAssociation
    simp only [hs, hparent, if_true, Outcome.returns]

/-- When the factory and the swap chain are created, the factory of the swap
chain can be found and the caller passes a record for the native dimensions,
`InitInternal` returns `Success` and the dimensions of the descriptor. -/
theorem InitInternal_returns (FrameCountMax : Nat) (ConvertFormat : Format → Nat)
    (p : Platform) (self : SwapChain) (descriptor : SwapChainDescriptor)
    (dimensions : SwapChainDimensions)
    (hfactory : SUCCEEDED p.CreateDXGIFactory2 = true)
    (hcreated : p.CreateSwapChain.1 = ResultCode.Success)
    (hhandle : p.CreateSwapChain.2.isSome = true) (hparent : p.GetParent = true) :
    (InitInternal FrameCountMax ConvertFormat p self descriptor (some dimensions)).result
      = .ok (ResultCode.Success, some descriptor.m_dimensions) := by
  rcases InitInternal_result FrameCountMax ConvertFormat p self descriptor (some dimensions)
    with h | ⟨f, h⟩
  · rw [h, hcreated]
    rfl
  · exfalso
    revert h
    unfold InitInternal
    simp only [AssertSuccess, hfactory, if_true, hcreated, Option.map_some', Outcome.after,
      Outcome.andThen_result]
    rw [ConfigureDisplayMode_live_result p _ _ hhandle]
    simp only
    split
    · rw [Outcome.andThen_result, makeWindowAssociation_live_result p _ _
        (by rw [ConfigureDisplayMode_frame]; exact hhandle) hparent]
      simp [Outcome.returns]
    · simp [Outcome.returns]

/-- Claim C11, counterexample. With the platform maximum 3, a creation that
requests 2 images puts 3 buffers, not min(2, 3) = 2, in the native creation
descriptor, and a creation that requests 5 images reports 5 images, not
min(5, 3) = 3, back in the native dimensions. -/
theorem init_does_not_clamp_image_count :
    createdBufferCounts
        (InitInternal 3 (fun _ => 28) Sample.platform Sample.uninitialized
          (Sample.descriptorRequesting 2) (some Sample.standardDimensions)).trace = [3]
      ∧ min 2 3 = 2
      ∧ (InitInternal 3 (fun _ => 28) Sample.platform Sample.uninitialized
          (Sample.descriptorRequesting 5) (some Sample.standardDimensions)).result
        = .ok (ResultCode.Success, some { Sample.standardDimensions with m_imageCount := 5 })
      ∧ min 5 3 = 3 :=
  ⟨by decide, by decide, rfl, by decide⟩

/-- Claim C11, amended. For every requested image count `r` in the creation
descriptor, `InitInternal` does not clamp: the buffer count placed in the
native creation descriptor is the platform maximum `FrameCountMax` whatever
`r` is, and the native dimensions reported back are the dimensions of the
descriptor copied unchanged, so their image count is `r`. When the swap chain
is created, its factory is found and the caller passes a record for the
native dimensions, the call returns `Success` with that record. -/
theorem init_image_count_not_clamped (FrameCountMax : Nat) (ConvertFormat : Format → Nat)
    (p : Platform) (self : SwapChain) (descriptor : SwapChainDescriptor)
    (nativeDimensions : Option SwapChainDimensions)
    (hfactory : SUCCEEDED p.CreateDXGIFactory2 = true) :
    createdBufferCounts
        (InitInternal FrameCountMax ConvertFormat p self descriptor nativeDimensions).trace
        = [FrameCountMax]
      ∧ (∀ code reported,
          (InitInternal FrameCountMax ConvertFormat p self descriptor nativeDimensions).result
              = .ok (code, reported) →
            reported = nativeDimensions.map (fun _ => descriptor.m_dimensions)
              ∧ reported.map (fun d => d.m_imageCount)
                = nativeDimensions.map (fun _ => descriptor.m_dimensions.m_imageCount))
      ∧ (p.CreateSwapChain.1 = ResultCode.Success → p.CreateSwapChain.2.isSome = true →
          p.GetParent = true → ∀ dimensions, nativeDimensions = some dimensions →
            (InitInternal FrameCountMax ConvertFormat p self descriptor nativeDimensions).result
              = .ok (ResultCode.Success, some descriptor.m_dimensions)) := by
  refine ⟨InitInternal_createdBufferCounts FrameCountMax ConvertFormat p self descriptor
    nativeDimensions hfactory, ?_, ?_⟩
  · intro code reported hresult
    rcases InitInternal_result FrameCountMax ConvertFormat p self descriptor nativeDimensions
      with h | ⟨f, h⟩
    · rw [h] at hresult
      injection hresult with hpair
      injection hpair with _ hreported
      subst hreported
      exact ⟨rfl, by cases nativeDimensions <;> rfl⟩
    · rw [h] at hresult
      cases hresult
  · intro hcreated hhandle hparent dimensions hsome
    subst hsome
    exact InitInternal_returns FrameCountMax ConvertFormat p self descriptor dimensions hfactory
      hcreated hhandle hparent

/-- Maximum 3, request 5: three buffers are created and five images are
reported back. -/
theorem init_image_count_not_clamped_witness :
    createdBufferCounts
        (InitInternal 3 (fun _ => 28) Sample.platform Sample.uninitialized
          (Sample.descriptorRequesting 5) (some Sample.standardDimensions)).trace = [3]
      ∧ (InitInternal 3 (fun _ => 28) Sample.platform Sample.uninitialized
          (Sample.descriptorRequesting 5) (some Sample.standardDimensions)).result
        = .ok (ResultCode.Success, some (Sample.descriptorRequesting 5).m_dimensions) :=
  ⟨(init_image_count_not_clamped 3 (fun _ => 28) Sample.platform Sample.uninitialized
      (Sample.descriptorRequesting 5) (some Sample.standardDimensions) (by decide)).1,
    (init_image_count_not_clamped 3 (fun _ => 28) Sample.platform Sample.uninitialized
      (Sample.descriptorRequesting 5) (some Sample.standardDimensions) (by decide)).2.2 rfl rfl rfl
      _ rfl⟩

end AZ.DX12
